import Mathlib

/-!
Verification development for the S2W-H5C monitoring core
(src/backend/node/src/aiops.ts and the OPS session loop of
src/backend/node/src/server.ts).

Embedding conventions:
* JavaScript numbers are modelled as exact rationals (ℚ).  All metric
  values, seconds and millisecond clocks are ℚ; clock readings
  (Date.now()) are passed explicitly as a parameter.
* The only floating-point operation whose result is not rational is
  Math.sqrt inside meanStd.  The source only ever uses the standard
  deviation in the two comparisons "std > 0.001" and "z >= theta"; both
  are encoded exactly in terms of the variance (see zGE below), so no
  square root is needed.
* Nondeterministic string payloads (fresh ids from Date.now/Math.random,
  ISO timestamps, human-readable messages) are omitted from the AiEvent
  model; every field the detector/controller logic reads or that the
  claims mention is kept.
* Stateful classes become structures with explicit state passing; each
  method returns its result together with the updated state.
-/

namespace H5C

/-- Severity levels of src/aiops.ts (type AiSeverity). -/
inductive AiSeverity
  | info
  | warn
  | critical
deriving DecidableEq, Repr, Inhabited

/-- Event kinds of src/aiops.ts (type AiEventType). -/
inductive AiEventType
  | cpu_spike
  | ram_spike
  | ram_leak
  | disk_full
  | io_spike
  | agent_unreachable
  | rate_limit_enabled
  | node_isolated
  | selfheal_noop
deriving DecidableEq, Repr, Inhabited

/-- Self-healing mode ("dry-run" | "armed"). -/
inductive Mode
  | dryRun
  | armed
deriving DecidableEq, Repr, Inhabited

/-- A metrics sample (type MetricsSample of src/aiops.ts).  The
updatedAt ISO-timestamp string is not modelled: neither the detector nor
the controller ever reads it. -/
structure MetricsSample where
  cpu : ℚ
  ram : ℚ
  disk : ℚ
  io : ℚ
  errors : ℚ
  source : Option String := none
deriving DecidableEq, Repr, Inhabited

/-- Proposed / executed actions (type AiAction of src/aiops.ts). -/
inductive AiAction
  | enable_rate_limit (reason : String) (seconds : ℚ)
  | isolate_node (reason : String)
  | restart_service (reason service : String)
  | restart_container (reason container : String)
  | load_balance_hint (reason : String)
deriving DecidableEq, Repr, Inhabited

/-- The executed record the controller attaches to an event. -/
structure ExecutedRecord where
  mode : Mode
  actions : List AiAction
deriving DecidableEq, Repr, Inhabited

/-- An AI event (type AiEvent of src/aiops.ts).  The id, at and message
string fields are omitted (fresh random ids and formatted timestamps);
type, severity, source, metrics snapshot, proposed actions and the
executed record are all modelled. -/
structure AiEvent where
  type : AiEventType
  severity : AiSeverity
  source : String
  metrics : Option MetricsSample := none
  actions : List AiAction := []
  executed : Option ExecutedRecord := none
deriving DecidableEq, Repr, Inhabited

/-- clamp of src/aiops.ts: Math.max(a, Math.min(b, n)). -/
def clamp (n a b : ℚ) : ℚ := max a (min b n)

/-- Mean of meanStd in src/aiops.ts (0 on the empty list). -/
def meanOf (l : List ℚ) : ℚ :=
  if l.length = 0 then 0 else l.sum / (l.length : ℚ)

/-- Variance computed by meanStd in src/aiops.ts (0 on the empty list);
the source stores std = Math.sqrt of this value. -/
def varOf (l : List ℚ) : ℚ :=
  if l.length = 0 then 0 else
  ((l.map fun x => (x - meanOf l) * (x - meanOf l)).sum) / (l.length : ℚ)

/-- Exact encoding of "z(x, s) >= theta" for the z of src/aiops.ts,
where s.std = sqrt v:
* when std > 0.001 (equivalently v > 1/1000000), z = (x - mean)/std and
  z >= theta iff x - mean >= theta * sqrt v iff
  (mean <= x and theta^2 * v <= (x - mean)^2), for theta > 0;
* otherwise z is 999 when x >= mean + 5 and 0 when not, so z >= theta
  iff mean + 5 <= x, for 0 < theta <= 999.
The detector only uses theta = 2.8 and theta = 2.6. -/
def zGE (x mean v theta : ℚ) : Bool :=
  if 1/1000000 < v then
    decide (mean ≤ x ∧ theta * theta * v ≤ (x - mean) * (x - mean))
  else
    decide (mean + 5 ≤ x)

/-- Ordinary least-squares slope over indices 0..n-1, exactly as
computed by detectRamLeak in src/aiops.ts. -/
def olsSlope (ys : List ℚ) : ℚ :=
  let xs : List ℚ := (List.range ys.length).map fun i => (i : ℚ)
  let n : ℚ := (ys.length : ℚ)
  let xMean := xs.sum / n
  let yMean := ys.sum / n
  let num := ((xs.zip ys).map fun p => (p.1 - xMean) * (p.2 - yMean)).sum
  let den := (xs.map fun x => (x - xMean) * (x - xMean)).sum
  if 0 < den then num / den else 0

/-- JavaScript array.slice(-n) for n > 0: the last n elements (the whole
list when it is shorter than n). -/
def lastN (n : Nat) (l : List α) : List α := l.drop (l.length - n)

/-- The while-loop of AnomalyDetector.push: while (length > max) shift()
(repeatedly drop the head while the list is longer than max). -/
def trimWhile (max : Nat) : List α → List α
  | [] => []
  | x :: xs => if max < xs.length + 1 then trimWhile max xs else x :: xs

/-- The most recent sample: window[window.length - 1]. -/
def lastSample (l : List MetricsSample) : MetricsSample := l.getLastD default

/-- The baseline of AnomalyDetector.detect: the last 60 samples
excluding the newest one (or all of them when fewer than 2). -/
def baselineOf (window : List MetricsSample) : List MetricsSample :=
  if 2 ≤ (lastN 60 window).length then (lastN 60 window).dropLast else lastN 60 window

/-- The per-kind last-trigger cooldown table (lastSpikeAtMs).  The
source stores a partial record and reads it with "?? 0", so absent
entries behave as 0; only these four kinds are ever written. -/
structure SpikeTable where
  cpu : ℚ := 0
  ram : ℚ := 0
  io : ℚ := 0
  disk : ℚ := 0
deriving DecidableEq, Repr, Inhabited

/-- State of class AnomalyDetector. -/
structure AnomalyDetector where
  window : List MetricsSample := []
  lastLeakAtMs : ℚ := 0
  lastSpikeAtMs : SpikeTable := {}
deriving DecidableEq, Repr, Inhabited

namespace AnomalyDetector

/-- AnomalyDetector.push: append, then evict oldest while over capacity
120. -/
def push (st : AnomalyDetector) (m : MetricsSample) : AnomalyDetector :=
  { st with window := trimWhile 120 (st.window ++ [m]) }

/-- Absolute-threshold CPU rule of detect: cpu >= 95, cooldown 15s. -/
def absCpuStep (last : MetricsSample) (src : String) (t : SpikeTable) (now : ℚ) :
    Option AiEvent × SpikeTable :=
  if 95 ≤ last.cpu ∧ ¬ now - t.cpu < 15000 then
    (some { type := .cpu_spike, severity := .critical, source := src, metrics := some last,
            actions := [.enable_rate_limit "cpu_spike" 30,
                        .load_balance_hint "트래픽 분산/스케일아웃 검토"] },
     { t with cpu := now })
  else (none, t)

/-- Absolute-threshold RAM rule of detect: ram >= 95, cooldown 15s. -/
def absRamStep (last : MetricsSample) (src : String) (t : SpikeTable) (now : ℚ) :
    Option AiEvent × SpikeTable :=
  if 95 ≤ last.ram ∧ ¬ now - t.ram < 15000 then
    (some { type := .ram_spike, severity := .critical, source := src, metrics := some last,
            actions := [.enable_rate_limit "ram_spike" 30,
                        .load_balance_hint "메모리 누수/프로세스 점검"] },
     { t with ram := now })
  else (none, t)

/-- Absolute-threshold I/O rule of detect: io >= 95, cooldown 12s. -/
def absIoStep (last : MetricsSample) (src : String) (t : SpikeTable) (now : ℚ) :
    Option AiEvent × SpikeTable :=
  if 95 ≤ last.io ∧ ¬ now - t.io < 12000 then
    (some { type := .io_spike, severity := .critical, source := src, metrics := some last,
            actions := [.enable_rate_limit "io_spike" 20] },
     { t with io := now })
  else (none, t)

/-- Disk rule of detect: disk >= 90 (critical from 97), cooldown 30s. -/
def absDiskStep (last : MetricsSample) (src : String) (t : SpikeTable) (now : ℚ) :
    Option AiEvent × SpikeTable :=
  if 90 ≤ last.disk ∧ ¬ now - t.disk < 30000 then
    (some { type := .disk_full,
            severity := if 97 ≤ last.disk then .critical else .warn,
            source := src, metrics := some last,
            actions := [.load_balance_hint "로그/캐시 정리 또는 볼륨 증설"] },
     { t with disk := now })
  else (none, t)

/-- Statistical CPU rule of detect: cpu in [85, 95), z >= 2.8, shared
cooldown 15s. -/
def statCpuStep (last : MetricsSample) (src : String) (t : SpikeTable) (now mean v : ℚ) :
    Option AiEvent × SpikeTable :=
  if last.cpu < 95 ∧ 85 ≤ last.cpu ∧ zGE last.cpu mean v (2.8 : ℚ) = true ∧
      ¬ now - t.cpu < 15000 then
    (some { type := .cpu_spike,
            severity := if 95 ≤ last.cpu then .critical else .warn,
            source := src, metrics := some last,
            actions := [.enable_rate_limit "cpu_spike" 30,
                        .load_balance_hint "트래픽 분산/스케일아웃 검토"] },
     { t with cpu := now })
  else (none, t)

/-- Statistical RAM rule of detect: ram in [85, 95), z >= 2.8, shared
cooldown 15s. -/
def statRamStep (last : MetricsSample) (src : String) (t : SpikeTable) (now mean v : ℚ) :
    Option AiEvent × SpikeTable :=
  if last.ram < 95 ∧ 85 ≤ last.ram ∧ zGE last.ram mean v (2.8 : ℚ) = true ∧
      ¬ now - t.ram < 15000 then
    (some { type := .ram_spike,
            severity := if 95 ≤ last.ram then .critical else .warn,
            source := src, metrics := some last,
            actions := [.enable_rate_limit "ram_spike" 30,
                        .load_balance_hint "메모리 누수/프로세스 점검"] },
     { t with ram := now })
  else (none, t)

/-- Statistical I/O rule of detect: io in [85, 95), z >= 2.6, shared
cooldown 12s. -/
def statIoStep (last : MetricsSample) (src : String) (t : SpikeTable) (now mean v : ℚ) :
    Option AiEvent × SpikeTable :=
  if last.io < 95 ∧ 85 ≤ last.io ∧ zGE last.io mean v (2.6 : ℚ) = true ∧
      ¬ now - t.io < 12000 then
    (some { type := .io_spike,
            severity := if 95 ≤ last.io then .critical else .warn,
            source := src, metrics := some last,
            actions := [.enable_rate_limit "io_spike" 20] },
     { t with io := now })
  else (none, t)

/-- The absolute-threshold layer of detect (cpu, ram, io, disk rules in
source order, threading the cooldown table). -/
def detectAbs (last : MetricsSample) (src : String) (t : SpikeTable) (now : ℚ) :
    List AiEvent × SpikeTable :=
  let r1 := absCpuStep last src t now
  let r2 := absRamStep last src r1.2 now
  let r3 := absIoStep last src r2.2 now
  let r4 := absDiskStep last src r3.2 now
  ([r1.1, r2.1, r3.1, r4.1].filterMap id, r4.2)

/-- The statistical layer of detect (cpu, ram, io in source order over
the baseline's mean/variance, threading the cooldown table). -/
def detectStat (last : MetricsSample) (src : String) (baseline : List MetricsSample)
    (t : SpikeTable) (now : ℚ) : List AiEvent × SpikeTable :=
  let r5 := statCpuStep last src t now
    (meanOf (baseline.map fun x => x.cpu)) (varOf (baseline.map fun x => x.cpu))
  let r6 := statRamStep last src r5.2 now
    (meanOf (baseline.map fun x => x.ram)) (varOf (baseline.map fun x => x.ram))
  let r7 := statIoStep last src r6.2 now
    (meanOf (baseline.map fun x => x.io)) (varOf (baseline.map fun x => x.io))
  ([r5.1, r6.1, r7.1].filterMap id, r7.2)

/-- AnomalyDetector.detectRamLeak: last 25 RAM readings, 20s cooldown,
fires when last >= 80, rise >= 8 and the OLS slope >= 0.22.  Returns the
optional event and the updated lastLeakAtMs. -/
def detectRamLeak (window : List MetricsSample) (lastLeakAtMs now : ℚ) :
    Option AiEvent × ℚ :=
  if now - lastLeakAtMs < 20000 then (none, lastLeakAtMs) else
  if (lastN 25 window).length < 25 then (none, lastLeakAtMs) else
  let ys := (lastN 25 window).map fun x => x.ram
  let slope := olsSlope ys
  let rise := ys.getLastD 0 - ys.headD 0
  if 80 ≤ ys.getLastD 0 ∧ 8 ≤ rise ∧ (0.22 : ℚ) ≤ slope then
    (some { type := .ram_leak,
            severity := if 92 ≤ ys.getLastD 0 then .critical else .warn,
            source := ((lastN 25 window).getLastD default).source.getD "unknown",
            metrics := some ((lastN 25 window).getLastD default),
            actions := [.enable_rate_limit "ram_leak" 45,
                        .load_balance_hint "프로세스 재시작/배포 롤백 검토"] },
     now)
  else (none, lastLeakAtMs)

/-- AnomalyDetector.detect: empty-window early return; absolute layer;
early return below 8 samples; statistical layer; ram-leak trend layer.
Returns the emitted events (in source emission order) and the updated
detector state. -/
def detect (st : AnomalyDetector) (src : String) (now : ℚ) :
    List AiEvent × AnomalyDetector :=
  if st.window.length < 1 then ([], st) else
  let a := detectAbs (lastSample st.window) src st.lastSpikeAtMs now
  if st.window.length < 8 then (a.1, { st with lastSpikeAtMs := a.2 }) else
  let s := detectStat (lastSample st.window) src (baselineOf st.window) a.2 now
  let l := detectRamLeak st.window st.lastLeakAtMs now
  (a.1 ++ s.1 ++ l.1.toList,
   { window := st.window, lastLeakAtMs := l.2, lastSpikeAtMs := s.2 })

end AnomalyDetector

/-- Self-heal configuration (type SelfHealConfig of src/aiops.ts). -/
structure SelfHealConfig where
  enabled : Bool
  mode : Mode
  rateLimitSeconds : ℚ
deriving DecidableEq, Repr, Inhabited

/-- A Partial of SelfHealConfig as used by the constructor and
setConfig; none models an absent (or, for setConfig, non-boolean /
non-legal-mode / non-finite-number) field. -/
structure PartialSelfHealConfig where
  enabled : Option Bool := none
  mode : Option Mode := none
  rateLimitSeconds : Option ℚ := none
deriving DecidableEq, Repr, Inhabited

/-- State of class SelfHealing. -/
structure SelfHealing where
  cfg : SelfHealConfig
  rateLimitUntilMs : ℚ := 0
  isolated : Bool := false
deriving DecidableEq, Repr, Inhabited

namespace SelfHealing

/-- The SelfHealing constructor: defaults enabled=false, mode=dry-run,
rateLimitSeconds=30; a provided rateLimitSeconds is stored as given
(no clamping happens here). -/
def create (c : PartialSelfHealConfig) : SelfHealing :=
  { cfg := { enabled := c.enabled.getD false,
             mode := c.mode.getD .dryRun,
             rateLimitSeconds := c.rateLimitSeconds.getD 30 } }

/-- SelfHealing.getConfig (returns a copy of the config). -/
def getConfig (s : SelfHealing) : SelfHealConfig := s.cfg

/-- SelfHealing.setConfig: merge provided fields; rateLimitSeconds is
clamped to [5, 300]. -/
def setConfig (s : SelfHealing) (next : PartialSelfHealConfig) : SelfHealing :=
  let s1 := match next.enabled with
    | some b => { s with cfg := { s.cfg with enabled := b } }
    | none => s
  let s2 := match next.mode with
    | some m => { s1 with cfg := { s1.cfg with mode := m } }
    | none => s1
  match next.rateLimitSeconds with
  | some r => { s2 with cfg := { s2.cfg with rateLimitSeconds := clamp r 5 300 } }
  | none => s2

/-- SelfHealing.isRateLimited: now < rateLimitUntilMs. -/
def isRateLimited (s : SelfHealing) (now : ℚ) : Bool := decide (now < s.rateLimitUntilMs)

/-- SelfHealing.isIsolated. -/
def isIsolated (s : SelfHealing) : Bool := s.isolated

/-- One iteration of the action loop of SelfHealing.apply: dry-run
records the action unchanged with no side effect; armed executes
enable_rate_limit (clamped seconds, rateLimitUntilMs advanced by max)
and isolate_node (latch), and records a generic placeholder for every
other kind. -/
def execAction (s : SelfHealing) (now : ℚ) (a : AiAction) : AiAction × SelfHealing :=
  if s.cfg.mode = .dryRun then (a, s) else
  match a with
  | .enable_rate_limit _ sec =>
      (a, { s with rateLimitUntilMs := max s.rateLimitUntilMs (now + clamp sec 5 300 * 1000) })
  | .isolate_node _ => (a, { s with isolated := true })
  | _ => (.load_balance_hint "실행 불가(설명용)", s)

/-- The action loop of SelfHealing.apply over one event's actions. -/
def execActions (now : ℚ) : SelfHealing → List AiAction → List AiAction × SelfHealing
  | s, [] => ([], s)
  | s, a :: rest =>
      let r := execAction s now a
      let rs := execActions now r.2 rest
      (r.1 :: rs.1, rs.2)

/-- The event loop of SelfHealing.apply: events without actions pass
through unchanged; otherwise the executed record (with the current
mode) is attached to a copy of the event. -/
def applyEvents (now : ℚ) : SelfHealing → List AiEvent → List AiEvent × SelfHealing
  | s, [] => ([], s)
  | s, ev :: rest =>
      if ev.actions.isEmpty then
        let rs := applyEvents now s rest
        (ev :: rs.1, rs.2)
      else
        let r := execActions now s ev.actions
        let rs := applyEvents now r.2 rest
        ({ ev with executed := some ⟨r.2.cfg.mode, r.1⟩ } :: rs.1, rs.2)

/-- SelfHealing.apply: pass-through when the policy is disabled. -/
def apply (s : SelfHealing) (events : List AiEvent) (now : ℚ) :
    List AiEvent × SelfHealing :=
  if s.cfg.enabled then applyEvents now s events else (events, s)

end SelfHealing

/-- Metric source selected by an OPS session ("local" | "monitor"). -/
inductive SrcKind
  | local
  | monitor
deriving DecidableEq, Repr, Inhabited

/-- Per-connection session state of the /ws/ops handler in server.ts:
selected source, validity of the monitor URL, consecutive-failure
streak, and the session-owned detector. -/
structure OpsSession where
  source : SrcKind := .local
  monitorUrlOk : Bool := true
  errorStreak : Nat := 0
  detector : AnomalyDetector := {}
deriving DecidableEq, Repr, Inhabited

/-- Messages sent over the OPS websocket (type OpsWsMsg of server.ts).
Status message strings are abstracted to constructors carrying the data
the source interpolates into them; the collection-failure status
carries the errorStreak count exactly as the source message does. -/
inductive OpsMsg
  | statusIsolated
  | statusUrlInvalid
  | statusCollectFail (streak : Nat)
  | statusFallback
  | metrics (m : MetricsSample)
  | ai (e : AiEvent)
  | selfheal (enabled : Bool) (mode : Mode) (rateLimited : Bool) (isolated : Bool)
deriving DecidableEq, Repr, Inhabited

/-- The policy snapshot message built by tick from the current getters
of the shared SelfHealing instance. -/
def selfhealMsg (s : SelfHealing) (now : ℚ) : OpsMsg :=
  .selfheal s.cfg.enabled s.cfg.mode (SelfHealing.isRateLimited s now) (SelfHealing.isIsolated s)

/-- The agent_unreachable event synthesised by tick on the third
consecutive monitor-collection failure. -/
def agentUnreachableEv : AiEvent :=
  { type := .agent_unreachable, severity := .warn, source := "monitor" }

/-- The success path of tick: reset the streak, publish the raw sample,
push it into the session's detector, detect, apply the policy, publish
every enriched event, and republish the policy snapshot only when at
least one event fired. -/
def runPipeline (sh : SelfHealing) (ss : OpsSession) (m : MetricsSample)
    (dflt : String) (now : ℚ) : SelfHealing × OpsSession × List OpsMsg :=
  let d1 := AnomalyDetector.push ss.detector m
  let r := AnomalyDetector.detect d1 (m.source.getD dflt) now
  let ap := SelfHealing.apply sh r.1 now
  (ap.2, { ss with errorStreak := 0, detector := r.2 },
   OpsMsg.metrics m :: ap.1.map OpsMsg.ai ++
     (if 0 < r.1.length then [selfhealMsg ap.2 now] else []))

/-- The catch block of tick: increment the streak and publish an error
status carrying it; on the third consecutive failure of the monitor
source, fall back to local, reset the streak and publish one
agent_unreachable warn event. -/
def failPath (sh : SelfHealing) (ss : OpsSession) :
    SelfHealing × OpsSession × List OpsMsg :=
  let streak := ss.errorStreak + 1
  if ss.source = .monitor ∧ 3 ≤ streak then
    (sh, { ss with source := .local, errorStreak := 0 },
     [.statusCollectFail streak, .statusFallback, .ai agentUnreachableEv])
  else
    (sh, { ss with errorStreak := streak }, [.statusCollectFail streak])

/-- One tick of the OPS session loop of server.ts.  The collection
result is passed in (Except.error models the awaited collector call
throwing); the catch around the whole body is the failPath branch. -/
def tick (sh : SelfHealing) (ss : OpsSession) (collect : Except Unit MetricsSample)
    (now : ℚ) : SelfHealing × OpsSession × List OpsMsg :=
  if SelfHealing.isIsolated sh then (sh, ss, [.statusIsolated]) else
  match ss.source with
  | .monitor =>
      if ¬ ss.monitorUrlOk then
        (sh, { ss with source := .local, errorStreak := 0 }, [.statusUrlInvalid])
      else
        match collect with
        | .ok m => runPipeline sh ss m "monitor" now
        | .error _ => failPath sh ss
  | .local =>
      match collect with
      | .ok m => runPipeline sh ss m "local" now
      | .error _ => failPath sh ss

/-! ## Basic lemmas about the bounded window -/

theorem trimWhile_of_le {α : Type} {max : Nat} :
    ∀ {l : List α}, l.length ≤ max → trimWhile max l = l
  | [], _ => rfl
  | x :: xs, h => by
      rw [trimWhile, if_neg]
      simp only [List.length_cons] at h
      omega

theorem trimWhile_length {α : Type} (max : Nat) :
    ∀ l : List α, (trimWhile max l).length = min l.length max
  | [] => by simp [trimWhile]
  | x :: xs => by
      by_cases h : max < xs.length + 1
      · rw [trimWhile, if_pos h, trimWhile_length max xs]
        simp only [List.length_cons]
        omega
      · rw [trimWhile, if_neg h]
        simp only [List.length_cons]
        omega

theorem trimWhile_of_succ {α : Type} {max : Nat} :
    ∀ {l : List α}, l.length = max + 1 → trimWhile max l = l.tail
  | [], h => by simp at h
  | x :: xs, h => by
      simp only [List.length_cons, Nat.add_right_cancel_iff] at h
      rw [trimWhile, if_pos (by omega), trimWhile_of_le (le_of_eq h)]
      rfl

/-- C1: for every sequence of push calls the detector's history never
holds more than 120 samples, and a push performed at capacity evicts
exactly the oldest sample while appending the new one, preserving the
order of the remaining samples. -/
theorem push_window_bounded :
    (∀ (ms : List MetricsSample) (st : AnomalyDetector), st.window.length ≤ 120 →
      ((ms.foldl AnomalyDetector.push st).window.length ≤ 120)) ∧
    (∀ (st : AnomalyDetector) (m : MetricsSample), st.window.length = 120 →
      (AnomalyDetector.push st m).window = st.window.tail ++ [m]) := by
  constructor
  · intro ms
    induction ms with
    | nil => intro st h; simpa using h
    | cons m rest ih =>
        intro st h
        simp only [List.foldl_cons]
        refine ih _ ?_
        simp only [AnomalyDetector.push, trimWhile_length, List.length_append,
          List.length_singleton]
        omega
  · intro st m h
    have htrim : trimWhile 120 (st.window ++ [m]) = (st.window ++ [m]).tail :=
      trimWhile_of_succ (by simp [h])
    simp only [AnomalyDetector.push, htrim]
    cases hw : st.window with
    | nil => rw [hw] at h; simp at h
    | cons x xs => simp

/-! ## Step lemmas for the detector layers -/

namespace AnomalyDetector

variable (last : MetricsSample) (src : String) (t : SpikeTable) (now mean v : ℚ)

@[simp] theorem absCpuStep_snd_ram : (absCpuStep last src t now).2.ram = t.ram := by
  simp only [absCpuStep]; split <;> rfl

@[simp] theorem absCpuStep_snd_io : (absCpuStep last src t now).2.io = t.io := by
  simp only [absCpuStep]; split <;> rfl

@[simp] theorem absCpuStep_snd_disk : (absCpuStep last src t now).2.disk = t.disk := by
  simp only [absCpuStep]; split <;> rfl

@[simp] theorem absRamStep_snd_cpu : (absRamStep last src t now).2.cpu = t.cpu := by
  simp only [absRamStep]; split <;> rfl

@[simp] theorem absRamStep_snd_io : (absRamStep last src t now).2.io = t.io := by
  simp only [absRamStep]; split <;> rfl

@[simp] theorem absRamStep_snd_disk : (absRamStep last src t now).2.disk = t.disk := by
  simp only [absRamStep]; split <;> rfl

@[simp] theorem absIoStep_snd_cpu : (absIoStep last src t now).2.cpu = t.cpu := by
  simp only [absIoStep]; split <;> rfl

@[simp] theorem absIoStep_snd_ram : (absIoStep last src t now).2.ram = t.ram := by
  simp only [absIoStep]; split <;> rfl

@[simp] theorem absIoStep_snd_disk : (absIoStep last src t now).2.disk = t.disk := by
  simp only [absIoStep]; split <;> rfl

@[simp] theorem absDiskStep_snd_cpu : (absDiskStep last src t now).2.cpu = t.cpu := by
  simp only [absDiskStep]; split <;> rfl

@[simp] theorem absDiskStep_snd_ram : (absDiskStep last src t now).2.ram = t.ram := by
  simp only [absDiskStep]; split <;> rfl

@[simp] theorem absDiskStep_snd_io : (absDiskStep last src t now).2.io = t.io := by
  simp only [absDiskStep]; split <;> rfl

@[simp] theorem statCpuStep_snd_ram : (statCpuStep last src t now mean v).2.ram = t.ram := by
  simp only [statCpuStep]; split <;> rfl

@[simp] theorem statCpuStep_snd_io : (statCpuStep last src t now mean v).2.io = t.io := by
  simp only [statCpuStep]; split <;> rfl

@[simp] theorem statRamStep_snd_cpu : (statRamStep last src t now mean v).2.cpu = t.cpu := by
  simp only [statRamStep]; split <;> rfl

@[simp] theorem statRamStep_snd_io : (statRamStep last src t now mean v).2.io = t.io := by
  simp only [statRamStep]; split <;> rfl

@[simp] theorem statIoStep_snd_cpu : (statIoStep last src t now mean v).2.cpu = t.cpu := by
  simp only [statIoStep]; split <;> rfl

@[simp] theorem statIoStep_snd_ram : (statIoStep last src t now mean v).2.ram = t.ram := by
  simp only [statIoStep]; split <;> rfl

theorem absCpuStep_fst_some {e : AiEvent}
    (h : (absCpuStep last src t now).1 = some e) :
    e.type = .cpu_spike ∧ e.severity = .critical ∧ 95 ≤ last.cpu ∧
      ¬ now - t.cpu < 15000 := by
  simp only [absCpuStep] at h
  split at h
  · rename_i hc
    simp only [Option.some.injEq] at h
    subst h
    exact ⟨rfl, rfl, hc.1, hc.2⟩
  · simp at h

theorem absRamStep_fst_some {e : AiEvent}
    (h : (absRamStep last src t now).1 = some e) :
    e.type = .ram_spike ∧ e.severity = .critical ∧ 95 ≤ last.ram ∧
      ¬ now - t.ram < 15000 := by
  simp only [absRamStep] at h
  split at h
  · rename_i hc
    simp only [Option.some.injEq] at h
    subst h
    exact ⟨rfl, rfl, hc.1, hc.2⟩
  · simp at h

theorem absIoStep_fst_some {e : AiEvent}
    (h : (absIoStep last src t now).1 = some e) :
    e.type = .io_spike ∧ e.severity = .critical ∧ 95 ≤ last.io ∧
      ¬ now - t.io < 12000 := by
  simp only [absIoStep] at h
  split at h
  · rename_i hc
    simp only [Option.some.injEq] at h
    subst h
    exact ⟨rfl, rfl, hc.1, hc.2⟩
  · simp at h

theorem absDiskStep_fst_some {e : AiEvent}
    (h : (absDiskStep last src t now).1 = some e) :
    e.type = .disk_full ∧ 90 ≤ last.disk ∧ ¬ now - t.disk < 30000 := by
  simp only [absDiskStep] at h
  split at h
  · rename_i hc
    simp only [Option.some.injEq] at h
    subst h
    exact ⟨rfl, hc.1, hc.2⟩
  · simp at h

theorem statCpuStep_fst_some {e : AiEvent}
    (h : (statCpuStep last src t now mean v).1 = some e) :
    e.type = .cpu_spike ∧ e.severity = .warn ∧ last.cpu < 95 ∧ 85 ≤ last.cpu ∧
      zGE last.cpu mean v (2.8 : ℚ) = true ∧ ¬ now - t.cpu < 15000 := by
  simp only [statCpuStep] at h
  split at h
  · rename_i hc
    simp only [Option.some.injEq] at h
    subst h
    exact ⟨rfl, by simp [not_le.mpr hc.1], hc.1, hc.2.1, hc.2.2.1, hc.2.2.2⟩
  · simp at h

theorem statRamStep_fst_some {e : AiEvent}
    (h : (statRamStep last src t now mean v).1 = some e) :
    e.type = .ram_spike ∧ e.severity = .warn ∧ last.ram < 95 ∧ 85 ≤ last.ram ∧
      zGE last.ram mean v (2.8 : ℚ) = true ∧ ¬ now - t.ram < 15000 := by
  simp only [statRamStep] at h
  split at h
  · rename_i hc
    simp only [Option.some.injEq] at h
    subst h
    exact ⟨rfl, by simp [not_le.mpr hc.1], hc.1, hc.2.1, hc.2.2.1, hc.2.2.2⟩
  · simp at h

theorem statIoStep_fst_some {e : AiEvent}
    (h : (statIoStep last src t now mean v).1 = some e) :
    e.type = .io_spike ∧ e.severity = .warn ∧ last.io < 95 ∧ 85 ≤ last.io ∧
      zGE last.io mean v (2.6 : ℚ) = true ∧ ¬ now - t.io < 12000 := by
  simp only [statIoStep] at h
  split at h
  · rename_i hc
    simp only [Option.some.injEq] at h
    subst h
    exact ⟨rfl, by simp [not_le.mpr hc.1], hc.1, hc.2.1, hc.2.2.1, hc.2.2.2⟩
  · simp at h

theorem absCpuStep_of_neg (h : ¬ (95 ≤ last.cpu ∧ ¬ now - t.cpu < 15000)) :
    absCpuStep last src t now = (none, t) := by
  simp only [absCpuStep, if_neg h]

theorem absRamStep_of_neg (h : ¬ (95 ≤ last.ram ∧ ¬ now - t.ram < 15000)) :
    absRamStep last src t now = (none, t) := by
  simp only [absRamStep, if_neg h]

theorem absIoStep_of_neg (h : ¬ (95 ≤ last.io ∧ ¬ now - t.io < 12000)) :
    absIoStep last src t now = (none, t) := by
  simp only [absIoStep, if_neg h]

theorem statCpuStep_of_neg
    (h : ¬ (last.cpu < 95 ∧ 85 ≤ last.cpu ∧ zGE last.cpu mean v (2.8 : ℚ) = true ∧
      ¬ now - t.cpu < 15000)) :
    statCpuStep last src t now mean v = (none, t) := by
  simp only [statCpuStep, if_neg h]

theorem statRamStep_of_neg
    (h : ¬ (last.ram < 95 ∧ 85 ≤ last.ram ∧ zGE last.ram mean v (2.8 : ℚ) = true ∧
      ¬ now - t.ram < 15000)) :
    statRamStep last src t now mean v = (none, t) := by
  simp only [statRamStep, if_neg h]

theorem statIoStep_of_neg
    (h : ¬ (last.io < 95 ∧ 85 ≤ last.io ∧ zGE last.io mean v (2.6 : ℚ) = true ∧
      ¬ now - t.io < 12000)) :
    statIoStep last src t now mean v = (none, t) := by
  simp only [statIoStep, if_neg h]

theorem statCpuStep_fires
    (h : last.cpu < 95 ∧ 85 ≤ last.cpu ∧ zGE last.cpu mean v (2.8 : ℚ) = true ∧
      ¬ now - t.cpu < 15000) :
    ∃ e, (statCpuStep last src t now mean v).1 = some e ∧
      e.type = .cpu_spike ∧ e.severity = .warn := by
  have h1 : (statCpuStep last src t now mean v).1.isSome := by
    simp only [statCpuStep, if_pos h]
    rfl
  obtain ⟨e, he⟩ := Option.isSome_iff_exists.mp h1
  obtain ⟨h2, h3, -⟩ := statCpuStep_fst_some last src t now mean v he
  exact ⟨e, he, h2, h3⟩

theorem statRamStep_fires
    (h : last.ram < 95 ∧ 85 ≤ last.ram ∧ zGE last.ram mean v (2.8 : ℚ) = true ∧
      ¬ now - t.ram < 15000) :
    ∃ e, (statRamStep last src t now mean v).1 = some e ∧
      e.type = .ram_spike ∧ e.severity = .warn := by
  have h1 : (statRamStep last src t now mean v).1.isSome := by
    simp only [statRamStep, if_pos h]
    rfl
  obtain ⟨e, he⟩ := Option.isSome_iff_exists.mp h1
  obtain ⟨h2, h3, -⟩ := statRamStep_fst_some last src t now mean v he
  exact ⟨e, he, h2, h3⟩

theorem statIoStep_fires
    (h : last.io < 95 ∧ 85 ≤ last.io ∧ zGE last.io mean v (2.6 : ℚ) = true ∧
      ¬ now - t.io < 12000) :
    ∃ e, (statIoStep last src t now mean v).1 = some e ∧
      e.type = .io_spike ∧ e.severity = .warn := by
  have h1 : (statIoStep last src t now mean v).1.isSome := by
    simp only [statIoStep, if_pos h]
    rfl
  obtain ⟨e, he⟩ := Option.isSome_iff_exists.mp h1
  obtain ⟨h2, h3, -⟩ := statIoStep_fst_some last src t now mean v he
  exact ⟨e, he, h2, h3⟩

theorem absCpuStep_fires (h : 95 ≤ last.cpu ∧ ¬ now - t.cpu < 15000) :
    ∃ e, (absCpuStep last src t now).1 = some e ∧
      e.type = .cpu_spike ∧ e.severity = .critical := by
  have h1 : (absCpuStep last src t now).1.isSome := by
    simp only [absCpuStep, if_pos h]
    rfl
  obtain ⟨e, he⟩ := Option.isSome_iff_exists.mp h1
  obtain ⟨h2, h3, -⟩ := absCpuStep_fst_some last src t now he
  exact ⟨e, he, h2, h3⟩

theorem detectRamLeak_fst_some {window : List MetricsSample} {lastLeakAtMs now : ℚ}
    {e : AiEvent} (h : (detectRamLeak window lastLeakAtMs now).1 = some e) :
    e.type = .ram_leak := by
  simp only [detectRamLeak] at h
  split at h
  · simp at h
  · split at h
    · simp at h
    · split at h
      · simp only [Option.some.injEq] at h
        subst h
        rfl
      · simp at h

theorem detectAbs_snd_cpu :
    (detectAbs last src t now).2.cpu =
      if 95 ≤ last.cpu ∧ ¬ now - t.cpu < 15000 then now else t.cpu := by
  by_cases h : 95 ≤ last.cpu ∧ ¬ now - t.cpu < 15000
  · simp only [detectAbs, absDiskStep_snd_cpu, absIoStep_snd_cpu, absRamStep_snd_cpu,
      absCpuStep, if_pos h]
  · simp only [detectAbs, absDiskStep_snd_cpu, absIoStep_snd_cpu, absRamStep_snd_cpu,
      absCpuStep_of_neg last src t now h, if_neg h]

theorem detectAbs_snd_ram :
    (detectAbs last src t now).2.ram =
      if 95 ≤ last.ram ∧ ¬ now - t.ram < 15000 then now else t.ram := by
  have h1 : (absCpuStep last src t now).2.ram = t.ram := absCpuStep_snd_ram last src t now
  by_cases h : 95 ≤ last.ram ∧ ¬ now - t.ram < 15000
  · simp only [detectAbs, absDiskStep_snd_ram, absIoStep_snd_ram, absRamStep, h1, if_pos h]
  · simp only [detectAbs, absDiskStep_snd_ram, absIoStep_snd_ram,
      absRamStep_of_neg last src _ now (by rw [h1]; exact h), if_neg h, h1]

theorem detectAbs_snd_io :
    (detectAbs last src t now).2.io =
      if 95 ≤ last.io ∧ ¬ now - t.io < 12000 then now else t.io := by
  have h1 : (absRamStep last src (absCpuStep last src t now).2 now).2.io = t.io := by
    simp
  by_cases h : 95 ≤ last.io ∧ ¬ now - t.io < 12000
  · simp only [detectAbs, absDiskStep_snd_io, absIoStep, h1, if_pos h]
  · simp only [detectAbs, absDiskStep_snd_io,
      absIoStep_of_neg last src _ now (by rw [h1]; exact h), if_neg h, h1]

theorem detectAbs_mem {e : AiEvent} (h : e ∈ (detectAbs last src t now).1) :
    (e.type = .cpu_spike ∧ e.severity = .critical ∧ 95 ≤ last.cpu ∧
      ¬ now - t.cpu < 15000) ∨
    (e.type = .ram_spike ∧ e.severity = .critical ∧ 95 ≤ last.ram ∧
      ¬ now - t.ram < 15000) ∨
    (e.type = .io_spike ∧ e.severity = .critical ∧ 95 ≤ last.io ∧
      ¬ now - t.io < 12000) ∨
    (e.type = .disk_full ∧ 90 ≤ last.disk) := by
  simp only [detectAbs, List.mem_filterMap, List.mem_cons, List.not_mem_nil, or_false,
    id_eq] at h
  obtain ⟨o, ho, hoe⟩ := h
  subst hoe
  rcases ho with h1 | h2 | h3 | h4
  · exact Or.inl (absCpuStep_fst_some last src t now h1.symm)
  · obtain ⟨a, b, c, d⟩ := absRamStep_fst_some last src _ now h2.symm
    rw [absCpuStep_snd_ram] at d
    exact Or.inr (Or.inl ⟨a, b, c, d⟩)
  · obtain ⟨a, b, c, d⟩ := absIoStep_fst_some last src _ now h3.symm
    rw [absRamStep_snd_io, absCpuStep_snd_io] at d
    exact Or.inr (Or.inr (Or.inl ⟨a, b, c, d⟩))
  · obtain ⟨a, b, c⟩ := absDiskStep_fst_some last src _ now h4.symm
    exact Or.inr (Or.inr (Or.inr ⟨a, b⟩))

theorem detectStat_mem {baseline : List MetricsSample} {e : AiEvent}
    (h : e ∈ (detectStat last src baseline t now).1) :
    (e.type = .cpu_spike ∧ e.severity = .warn ∧ last.cpu < 95 ∧ 85 ≤ last.cpu ∧
      zGE last.cpu (meanOf (baseline.map fun x => x.cpu))
        (varOf (baseline.map fun x => x.cpu)) (2.8 : ℚ) = true ∧
      ¬ now - t.cpu < 15000) ∨
    (e.type = .ram_spike ∧ e.severity = .warn ∧ last.ram < 95 ∧ 85 ≤ last.ram ∧
      zGE last.ram (meanOf (baseline.map fun x => x.ram))
        (varOf (baseline.map fun x => x.ram)) (2.8 : ℚ) = true ∧
      ¬ now - t.ram < 15000) ∨
    (e.type = .io_spike ∧ e.severity = .warn ∧ last.io < 95 ∧ 85 ≤ last.io ∧
      zGE last.io (meanOf (baseline.map fun x => x.io))
        (varOf (baseline.map fun x => x.io)) (2.6 : ℚ) = true ∧
      ¬ now - t.io < 12000) := by
  simp only [detectStat, List.mem_filterMap, List.mem_cons, List.not_mem_nil, or_false,
    id_eq] at h
  obtain ⟨o, ho, hoe⟩ := h
  subst hoe
  rcases ho with h1 | h2 | h3
  · exact Or.inl (statCpuStep_fst_some last src t now _ _ h1.symm)
  · obtain ⟨a, b, c, d, f, g⟩ := statRamStep_fst_some last src _ now _ _ h2.symm
    rw [statCpuStep_snd_ram] at g
    exact Or.inr (Or.inl ⟨a, b, c, d, f, g⟩)
  · obtain ⟨a, b, c, d, f, g⟩ := statIoStep_fst_some last src _ now _ _ h3.symm
    rw [statRamStep_snd_io, statCpuStep_snd_io] at g
    exact Or.inr (Or.inr ⟨a, b, c, d, f, g⟩)

theorem detect_mem {st : AnomalyDetector} {src : String} {now : ℚ} {e : AiEvent}
    (h : e ∈ (detect st src now).1) :
    e ∈ (detectAbs (lastSample st.window) src st.lastSpikeAtMs now).1 ∨
    (8 ≤ st.window.length ∧
      (e ∈ (detectStat (lastSample st.window) src (baselineOf st.window)
            (detectAbs (lastSample st.window) src st.lastSpikeAtMs now).2 now).1 ∨
       (detectRamLeak st.window st.lastLeakAtMs now).1 = some e)) := by
  simp only [detect] at h
  split at h
  · simp at h
  · split at h
    · exact Or.inl h
    · rename_i h1 h8
      rw [List.mem_append, List.mem_append] at h
      rcases h with (h | h) | h
      · exact Or.inl h
      · exact Or.inr ⟨by omega, Or.inl h⟩
      · refine Or.inr ⟨by omega, Or.inr ?_⟩
        rcases ho : (detectRamLeak st.window st.lastLeakAtMs now).1 with - | e2
        · rw [ho] at h
          simp at h
        · rw [ho] at h
          simp only [Option.toList_some, List.mem_singleton] at h
          rw [h]

theorem detect_mem_of_stat {st : AnomalyDetector} {src : String} {now : ℚ} {e : AiEvent}
    (h8 : 8 ≤ st.window.length)
    (he : e ∈ (detectStat (lastSample st.window) src (baselineOf st.window)
      (detectAbs (lastSample st.window) src st.lastSpikeAtMs now).2 now).1) :
    e ∈ (detect st src now).1 := by
  simp only [detect, if_neg (by omega : ¬ st.window.length < 1),
    if_neg (by omega : ¬ st.window.length < 8)]
  rw [List.mem_append, List.mem_append]
  exact Or.inl (Or.inr he)

theorem detect_short {st : AnomalyDetector} {src : String} {now : ℚ}
    (h1 : 1 ≤ st.window.length) (h8 : st.window.length < 8) :
    detect st src now =
      ((detectAbs (lastSample st.window) src st.lastSpikeAtMs now).1,
       { st with lastSpikeAtMs := (detectAbs (lastSample st.window) src st.lastSpikeAtMs now).2 }) := by
  simp only [detect, if_neg (by omega : ¬ st.window.length < 1), if_pos h8]

theorem detectAbs_mem_of_cpu {e : AiEvent}
    (he : (absCpuStep last src t now).1 = some e) :
    e ∈ (detectAbs last src t now).1 := by
  simp only [detectAbs, List.mem_filterMap, id_eq]
  exact ⟨(absCpuStep last src t now).1, List.mem_cons_self _ _, he⟩

/-- push-then-detect, the per-sample flow of the session loop. -/
def detectAfterPush (st : AnomalyDetector) (m : MetricsSample) (src : String)
    (now : ℚ) : List AiEvent × AnomalyDetector :=
  detect (push st m) src now

end AnomalyDetector

/-- Sample used by concrete instances below. -/
def sample0 : MetricsSample := { cpu := 0, ram := 0, disk := 0, io := 0, errors := 0 }

/-- A detector whose window is exactly at capacity. -/
def det120 : AnomalyDetector := { window := List.replicate 120 sample0 }

/-- Witness for C1 at a concrete input. -/
theorem push_window_bounded_witness :
    ((List.replicate 121 sample0).foldl AnomalyDetector.push {}).window.length ≤ 120 ∧
    (AnomalyDetector.push det120 sample0).window = det120.window.tail ++ [sample0] :=
  ⟨push_window_bounded.1 _ {} (by simp),
   push_window_bounded.2 det120 sample0 (by simp [det120])⟩

namespace AnomalyDetector

/-- C2: a single sample with cpu = 96 yields a critical cpu_spike; a
second detect within 15s of the first event yields no cpu_spike
(cooldown); once at least 15s have elapsed since the first event, a
cpu = 96 sample fires a cpu_spike again.  The hypothesis 15000 ≤ t1
reflects that wall-clock readings of Date.now() always dominate the
zero-valued initial cooldown table. -/
theorem detect_cpu_spike_cooldown (m1 m2 m3 : MetricsSample) (t1 t2 t3 : ℚ)
    (hm1 : m1.cpu = 96) (hm2 : m2.cpu = 96) (hm3 : m3.cpu = 96)
    (h0 : 15000 ≤ t1) (h12 : t2 - t1 < 15000) (h13 : t1 + 15000 ≤ t3) :
    (∃ e ∈ (detectAfterPush {} m1 "demo" t1).1,
        e.type = .cpu_spike ∧ e.severity = .critical) ∧
    (∀ e ∈ (detectAfterPush (detectAfterPush {} m1 "demo" t1).2 m2 "demo" t2).1,
        e.type ≠ .cpu_spike) ∧
    (∃ e ∈ (detectAfterPush (detectAfterPush (detectAfterPush {} m1 "demo" t1).2
          m2 "demo" t2).2 m3 "demo" t3).1,
        e.type = .cpu_spike ∧ e.severity = .critical) := by
  -- first tick
  have hw1 : (push ({} : AnomalyDetector) m1).window = [m1] := by
    simp only [push]
    rw [trimWhile_of_le (by simp)]
    rfl
  have hguard1 : 95 ≤ m1.cpu ∧ ¬ t1 - ({} : SpikeTable).cpu < 15000 := by
    constructor
    · rw [hm1]; norm_num
    · show ¬ t1 - 0 < 15000
      intro hc
      linarith
  have hshort1 := @detect_short (push {} m1) "demo" t1
    (by rw [hw1]; simp) (by rw [hw1]; simp)
  have hr1_fst : (detectAfterPush {} m1 "demo" t1).1 =
      (detectAbs m1 "demo" {} t1).1 := by
    show (detect (push {} m1) "demo" t1).1 = _
    rw [hshort1, hw1]
    rfl
  have hr1_win : (detectAfterPush {} m1 "demo" t1).2.window = [m1] := by
    show (detect (push {} m1) "demo" t1).2.window = _
    rw [hshort1]
    exact hw1
  have hr1_cpu : (detectAfterPush {} m1 "demo" t1).2.lastSpikeAtMs.cpu = t1 := by
    show (detect (push {} m1) "demo" t1).2.lastSpikeAtMs.cpu = _
    rw [hshort1]
    show (detectAbs (lastSample (push {} m1).window) "demo"
      (push {} m1).lastSpikeAtMs t1).2.cpu = t1
    rw [hw1, show lastSample [m1] = m1 from rfl,
      show (push {} m1).lastSpikeAtMs = {} from rfl, detectAbs_snd_cpu,
      if_pos hguard1]
  refine ⟨?_, ?_, ?_⟩
  · obtain ⟨e, he, het, hes⟩ := absCpuStep_fires m1 "demo" {} t1 hguard1
    exact ⟨e, by rw [hr1_fst]; exact detectAbs_mem_of_cpu m1 "demo" {} t1 he,
      het, hes⟩
  · -- second tick: cooldown suppresses the cpu kind
    have hw2 : (push (detectAfterPush {} m1 "demo" t1).2 m2).window = [m1, m2] := by
      simp only [push]
      rw [hr1_win, trimWhile_of_le (by simp)]
      rfl
    intro e he
    have hshort2 := @detect_short
      (push (detectAfterPush {} m1 "demo" t1).2 m2) "demo" t2
      (by rw [hw2]; simp) (by rw [hw2]; simp)
    rw [show detectAfterPush (detectAfterPush {} m1 "demo" t1).2 m2 "demo" t2 =
      detect (push (detectAfterPush {} m1 "demo" t1).2 m2) "demo" t2 from rfl,
      hshort2] at he
    have he2 : e ∈ (detectAbs m2 "demo"
        (detectAfterPush {} m1 "demo" t1).2.lastSpikeAtMs t2).1 := by
      rw [hw2] at he
      exact he
    rcases detectAbs_mem m2 "demo" _ t2 he2 with h | h | h | h
    · exfalso
      apply h.2.2.2
      rw [hr1_cpu]
      exact h12
    · rw [h.1]; simp
    · rw [h.1]; simp
    · rw [h.1]; simp
  · -- third tick: the cooldown has elapsed
    have hw2 : (push (detectAfterPush {} m1 "demo" t1).2 m2).window = [m1, m2] := by
      simp only [push]
      rw [hr1_win, trimWhile_of_le (by simp)]
      rfl
    have hshort2 := @detect_short
      (push (detectAfterPush {} m1 "demo" t1).2 m2) "demo" t2
      (by rw [hw2]; simp) (by rw [hw2]; simp)
    have hr2_win : (detectAfterPush (detectAfterPush {} m1 "demo" t1).2
        m2 "demo" t2).2.window = [m1, m2] := by
      show (detect (push (detectAfterPush {} m1 "demo" t1).2 m2) "demo" t2).2.window = _
      rw [hshort2]
      exact hw2
    have hr2_cpu : (detectAfterPush (detectAfterPush {} m1 "demo" t1).2
        m2 "demo" t2).2.lastSpikeAtMs.cpu = t1 := by
      show (detect (push (detectAfterPush {} m1 "demo" t1).2 m2) "demo"
        t2).2.lastSpikeAtMs.cpu = _
      rw [hshort2]
      show (detectAbs (lastSample (push (detectAfterPush {} m1 "demo" t1).2 m2).window)
        "demo" (push (detectAfterPush {} m1 "demo" t1).2 m2).lastSpikeAtMs t2).2.cpu = t1
      rw [hw2, show lastSample [m1, m2] = m2 from rfl,
        show (push (detectAfterPush {} m1 "demo" t1).2 m2).lastSpikeAtMs =
          (detectAfterPush {} m1 "demo" t1).2.lastSpikeAtMs from rfl,
        detectAbs_snd_cpu, if_neg, hr1_cpu]
      rw [hr1_cpu]
      rintro ⟨-, hb⟩
      exact hb h12
    have hw3 : (push (detectAfterPush (detectAfterPush {} m1 "demo" t1).2
        m2 "demo" t2).2 m3).window = [m1, m2, m3] := by
      simp only [push]
      rw [hr2_win, trimWhile_of_le (by simp)]
      rfl
    have hguard3 : 95 ≤ m3.cpu ∧
        ¬ t3 - (push (detectAfterPush (detectAfterPush {} m1 "demo" t1).2
          m2 "demo" t2).2 m3).lastSpikeAtMs.cpu < 15000 := by
      constructor
      · rw [hm3]; norm_num
      · rw [show (push (detectAfterPush (detectAfterPush {} m1 "demo" t1).2
            m2 "demo" t2).2 m3).lastSpikeAtMs =
          (detectAfterPush (detectAfterPush {} m1 "demo" t1).2
            m2 "demo" t2).2.lastSpikeAtMs from rfl, hr2_cpu]
        intro hc
        linarith
    have hshort3 := @detect_short
      (push (detectAfterPush (detectAfterPush {} m1 "demo" t1).2
        m2 "demo" t2).2 m3) "demo" t3
      (by rw [hw3]; simp) (by rw [hw3]; simp)
    obtain ⟨e, he, het, hes⟩ := absCpuStep_fires m3 "demo"
      (push (detectAfterPush (detectAfterPush {} m1 "demo" t1).2
        m2 "demo" t2).2 m3).lastSpikeAtMs t3 hguard3
    refine ⟨e, ?_, het, hes⟩
    show e ∈ (detect (push (detectAfterPush (detectAfterPush {} m1 "demo" t1).2
      m2 "demo" t2).2 m3) "demo" t3).1
    rw [hshort3]
    have : lastSample (push (detectAfterPush (detectAfterPush {} m1 "demo" t1).2
        m2 "demo" t2).2 m3).window = m3 := by
      rw [hw3]
      rfl
    rw [this]
    exact detectAbs_mem_of_cpu m3 "demo" _ t3 he

end AnomalyDetector

/-- A sample with cpu = 96 used as the concrete C2 input. -/
def sample96 : MetricsSample := { cpu := 96, ram := 0, disk := 0, io := 0, errors := 0 }

/-- Witness for C2 at a concrete input. -/
theorem detect_cpu_spike_cooldown_witness :
    (∃ e ∈ (AnomalyDetector.detectAfterPush {} sample96 "demo" 20000).1,
        e.type = .cpu_spike ∧ e.severity = .critical) ∧
    (∀ e ∈ (AnomalyDetector.detectAfterPush
        (AnomalyDetector.detectAfterPush {} sample96 "demo" 20000).2
        sample96 "demo" 21000).1, e.type ≠ .cpu_spike) ∧
    (∃ e ∈ (AnomalyDetector.detectAfterPush (AnomalyDetector.detectAfterPush
        (AnomalyDetector.detectAfterPush {} sample96 "demo" 20000).2
        sample96 "demo" 21000).2 sample96 "demo" 35000).1,
        e.type = .cpu_spike ∧ e.severity = .critical) :=
  AnomalyDetector.detect_cpu_spike_cooldown sample96 sample96 sample96 20000 21000 35000
    rfl rfl rfl (by norm_num) (by norm_num) (by norm_num)

/-! ## SelfHealing lemmas -/

namespace SelfHealing

theorem execAction_cfg (s : SelfHealing) (now : ℚ) (a : AiAction) :
    (execAction s now a).2.cfg = s.cfg := by
  simp only [execAction]
  split
  · rfl
  · match a with
    | .enable_rate_limit r sec => rfl
    | .isolate_node r => rfl
    | .restart_service r sv => rfl
    | .restart_container r c => rfl
    | .load_balance_hint r => rfl

theorem execAction_mono (s : SelfHealing) (now : ℚ) (a : AiAction) :
    s.rateLimitUntilMs ≤ (execAction s now a).2.rateLimitUntilMs := by
  simp only [execAction]
  split
  · exact le_refl _
  · match a with
    | .enable_rate_limit r sec => exact le_max_left _ _
    | .isolate_node r => exact le_refl _
    | .restart_service r sv => exact le_refl _
    | .restart_container r c => exact le_refl _
    | .load_balance_hint r => exact le_refl _

theorem execActions_cfg (now : ℚ) (s : SelfHealing) (as : List AiAction) :
    (execActions now s as).2.cfg = s.cfg := by
  induction as generalizing s with
  | nil => rfl
  | cons a rest ih =>
      simp only [execActions]
      rw [ih, execAction_cfg]

theorem execActions_mono (now : ℚ) (s : SelfHealing) (as : List AiAction) :
    s.rateLimitUntilMs ≤ (execActions now s as).2.rateLimitUntilMs := by
  induction as generalizing s with
  | nil => exact le_refl _
  | cons a rest ih =>
      simp only [execActions]
      exact le_trans (execAction_mono s now a) (ih _)

theorem applyEvents_cfg (now : ℚ) (s : SelfHealing) (evs : List AiEvent) :
    (applyEvents now s evs).2.cfg = s.cfg := by
  induction evs generalizing s with
  | nil => rfl
  | cons ev rest ih =>
      simp only [applyEvents]
      split
      · exact ih s
      · rw [ih, execActions_cfg]

theorem applyEvents_mono (now : ℚ) (s : SelfHealing) (evs : List AiEvent) :
    s.rateLimitUntilMs ≤ (applyEvents now s evs).2.rateLimitUntilMs := by
  induction evs generalizing s with
  | nil => exact le_refl _
  | cons ev rest ih =>
      simp only [applyEvents]
      split
      · exact ih s
      · exact le_trans (execActions_mono now s ev.actions) (ih _)

theorem execActions_bound (now : ℚ) (s : SelfHealing) (as : List AiAction)
    (hmode : s.cfg.mode = .armed) {r : String} {sec : ℚ}
    (hmem : AiAction.enable_rate_limit r sec ∈ as) :
    now + clamp sec 5 300 * 1000 ≤ (execActions now s as).2.rateLimitUntilMs := by
  induction as generalizing s with
  | nil => simp at hmem
  | cons a rest ih =>
      simp only [execActions]
      rcases List.mem_cons.mp hmem with h | h
      · refine le_trans ?_ (execActions_mono now _ rest)
        subst h
        simp only [execAction, hmode]
        rw [if_neg (by simp)]
        exact le_max_right _ _
      · exact ih _ (by rw [execAction_cfg]; exact hmode) h

theorem applyEvents_bound (now : ℚ) (s : SelfHealing) (evs : List AiEvent)
    (hmode : s.cfg.mode = .armed) {ev : AiEvent} (hev : ev ∈ evs)
    {r : String} {sec : ℚ} (hmem : AiAction.enable_rate_limit r sec ∈ ev.actions) :
    now + clamp sec 5 300 * 1000 ≤ (applyEvents now s evs).2.rateLimitUntilMs := by
  induction evs generalizing s with
  | nil => simp at hev
  | cons ev0 rest ih =>
      simp only [applyEvents]
      rcases List.mem_cons.mp hev with h | h
      · subst h
        split
        · rename_i hempty
          rw [List.isEmpty_iff] at hempty
          rw [hempty] at hmem
          simp at hmem
        · exact le_trans (execActions_bound now s ev.actions hmode hmem)
            (applyEvents_mono now _ rest)
      · split
        · exact ih s hmode h
        · exact ih _ (by rw [execActions_cfg]; exact hmode) h

theorem execAction_dryRun (s : SelfHealing) (now : ℚ) (a : AiAction)
    (h : s.cfg.mode = .dryRun) : execAction s now a = (a, s) := by
  simp [execAction, h]

theorem execActions_dryRun (now : ℚ) (s : SelfHealing) (as : List AiAction)
    (h : s.cfg.mode = .dryRun) : execActions now s as = (as, s) := by
  induction as with
  | nil => rfl
  | cons a rest ih =>
      simp only [execActions, execAction_dryRun s now a h, ih]

theorem applyEvents_dryRun (now : ℚ) (s : SelfHealing) (evs : List AiEvent)
    (h : s.cfg.mode = .dryRun) :
    applyEvents now s evs =
      (evs.map fun ev => if ev.actions.isEmpty then ev
        else { ev with executed := some ⟨Mode.dryRun, ev.actions⟩ }, s) := by
  induction evs with
  | nil => rfl
  | cons ev rest ih =>
      simp only [applyEvents, execActions_dryRun now s ev.actions h, ih, List.map_cons]
      split
      · rfl
      · rw [h]

/-- C4: with the policy enabled and in armed mode, applying an
enable_rate_limit action clamps its seconds into [5, 300] and advances
rateLimitUntilMs to at least now + clamped seconds, and apply never
shortens an existing rate-limit window (so a second overlapping apply
with a smaller seconds value cannot shorten it). -/
theorem apply_rate_limit_never_shortens (s : SelfHealing) (evs : List AiEvent) (now : ℚ) :
    s.rateLimitUntilMs ≤ (apply s evs now).2.rateLimitUntilMs ∧
    (s.cfg.enabled = true → s.cfg.mode = .armed →
      ∀ ev ∈ evs, ∀ (r : String) (sec : ℚ),
        AiAction.enable_rate_limit r sec ∈ ev.actions →
        now + clamp sec 5 300 * 1000 ≤ (apply s evs now).2.rateLimitUntilMs) := by
  constructor
  · simp only [apply]
    split
    · exact applyEvents_mono now s evs
    · exact le_refl _
  · intro hen hmode ev hev r sec hmem
    simp only [apply, if_pos hen]
    exact applyEvents_bound now s evs hmode hev hmem

/-- C5: in dry-run mode, apply leaves the controller state unchanged —
isRateLimited and isIsolated are unaffected — and, when the policy is
enabled, every proposed action is merely recorded in the executed
field. -/
theorem apply_dry_run_frame (s : SelfHealing) (evs : List AiEvent) (now : ℚ)
    (h : s.cfg.mode = .dryRun) :
    (apply s evs now).2 = s ∧
    (∀ t, isRateLimited (apply s evs now).2 t = isRateLimited s t) ∧
    isIsolated (apply s evs now).2 = isIsolated s ∧
    (s.cfg.enabled = true →
      (apply s evs now).1 = evs.map fun ev => if ev.actions.isEmpty then ev
        else { ev with executed := some ⟨Mode.dryRun, ev.actions⟩ }) := by
  have hstate : (apply s evs now).2 = s := by
    simp only [apply]
    split
    · rw [applyEvents_dryRun now s evs h]
    · rfl
  refine ⟨hstate, fun t => by rw [hstate], by rw [hstate], fun hen => ?_⟩
  simp only [apply, if_pos hen, applyEvents_dryRun now s evs h]

end SelfHealing

/-- A controller with the policy enabled in armed mode. -/
def armedSelfHeal : SelfHealing :=
  { cfg := { enabled := true, mode := .armed, rateLimitSeconds := 30 } }

/-- A controller with the policy enabled in dry-run mode. -/
def dryRunSelfHeal : SelfHealing :=
  { cfg := { enabled := true, mode := .dryRun, rateLimitSeconds := 30 } }

/-- An event proposing a 30-second rate limit. -/
def rlEvent : AiEvent :=
  { type := .cpu_spike, severity := .critical, source := "demo",
    actions := [.enable_rate_limit "cpu_spike" 30] }

/-- An event proposing isolation and a rate limit. -/
def isoEvent : AiEvent :=
  { type := .ram_spike, severity := .critical, source := "demo",
    actions := [.isolate_node "ram_spike", .enable_rate_limit "ram_spike" 50] }

/-- Witness for C4 at a concrete input. -/
theorem apply_rate_limit_never_shortens_witness :
    armedSelfHeal.rateLimitUntilMs ≤
      (SelfHealing.apply armedSelfHeal [rlEvent] 0).2.rateLimitUntilMs ∧
    0 + clamp 30 5 300 * 1000 ≤
      (SelfHealing.apply armedSelfHeal [rlEvent] 0).2.rateLimitUntilMs :=
  ⟨(SelfHealing.apply_rate_limit_never_shortens armedSelfHeal [rlEvent] 0).1,
   (SelfHealing.apply_rate_limit_never_shortens armedSelfHeal [rlEvent] 0).2
     rfl rfl rlEvent (by simp) "cpu_spike" 30 (by simp [rlEvent])⟩

/-- Witness for C5 at a concrete input. -/
theorem apply_dry_run_frame_witness :
    (SelfHealing.apply dryRunSelfHeal [isoEvent] 7).2 = dryRunSelfHeal ∧
    SelfHealing.isRateLimited (SelfHealing.apply dryRunSelfHeal [isoEvent] 7).2 99 =
      SelfHealing.isRateLimited dryRunSelfHeal 99 ∧
    SelfHealing.isIsolated (SelfHealing.apply dryRunSelfHeal [isoEvent] 7).2 =
      SelfHealing.isIsolated dryRunSelfHeal ∧
    (SelfHealing.apply dryRunSelfHeal [isoEvent] 7).1 = [isoEvent].map fun ev =>
      if ev.actions.isEmpty then ev
      else { ev with executed := some ⟨Mode.dryRun, ev.actions⟩ } :=
  ⟨(SelfHealing.apply_dry_run_frame dryRunSelfHeal [isoEvent] 7 rfl).1,
   (SelfHealing.apply_dry_run_frame dryRunSelfHeal [isoEvent] 7 rfl).2.1 99,
   (SelfHealing.apply_dry_run_frame dryRunSelfHeal [isoEvent] 7 rfl).2.2.1,
   (SelfHealing.apply_dry_run_frame dryRunSelfHeal [isoEvent] 7 rfl).2.2.2 rfl⟩

/-! ## C10: the rateLimitSeconds range -/

theorem clamp_mem {r a b : ℚ} (hab : a ≤ b) : a ≤ clamp r a b ∧ clamp r a b ≤ b :=
  ⟨le_max_left _ _, max_le hab (min_le_left _ _)⟩

theorem setConfig_rateLimitSeconds (s : SelfHealing) (next : PartialSelfHealConfig) :
    (SelfHealing.setConfig s next).cfg.rateLimitSeconds =
      match next.rateLimitSeconds with
      | some r => clamp r 5 300
      | none => s.cfg.rateLimitSeconds := by
  obtain ⟨e, mo, r⟩ := next
  cases e <;> cases mo <;> cases r <;> rfl

/-- C10 counterexample: the SelfHealing constructor stores a provided
rateLimitSeconds without clamping, so a controller constructed with
initial rateLimitSeconds 301 reports 301 through getConfig — outside
[5, 300] — before any setConfig call. -/
theorem selfheal_constructor_unclamped :
    (SelfHealing.getConfig (SelfHealing.create
      { rateLimitSeconds := some 301 })).rateLimitSeconds = 301 ∧
    ¬ (SelfHealing.getConfig (SelfHealing.create
      { rateLimitSeconds := some 301 })).rateLimitSeconds ≤ 300 :=
  ⟨rfl, by decide⟩

/-- C10 (amended): provided the initial configuration's
rateLimitSeconds, when present, already lies within [5, 300] (the
constructor stores it unclamped; its default is 30), getConfig reports
a rateLimitSeconds within [5, 300] after any sequence of setConfig
calls — setConfig clamps every provided value into [5, 300]. -/
theorem rate_limit_seconds_invariant (c : PartialSelfHealConfig)
    (updates : List PartialSelfHealConfig)
    (h : ∀ r, c.rateLimitSeconds = some r → 5 ≤ r ∧ r ≤ 300) :
    5 ≤ (SelfHealing.getConfig (updates.foldl SelfHealing.setConfig
      (SelfHealing.create c))).rateLimitSeconds ∧
    (SelfHealing.getConfig (updates.foldl SelfHealing.setConfig
      (SelfHealing.create c))).rateLimitSeconds ≤ 300 := by
  have hstart : 5 ≤ (SelfHealing.create c).cfg.rateLimitSeconds ∧
      (SelfHealing.create c).cfg.rateLimitSeconds ≤ 300 := by
    show 5 ≤ c.rateLimitSeconds.getD 30 ∧ c.rateLimitSeconds.getD 30 ≤ 300
    cases hc : c.rateLimitSeconds with
    | none => norm_num
    | some r => simpa using h r hc
  have haux : ∀ (us : List PartialSelfHealConfig) (s : SelfHealing),
      5 ≤ s.cfg.rateLimitSeconds → s.cfg.rateLimitSeconds ≤ 300 →
      5 ≤ (us.foldl SelfHealing.setConfig s).cfg.rateLimitSeconds ∧
      (us.foldl SelfHealing.setConfig s).cfg.rateLimitSeconds ≤ 300 := by
    intro us
    induction us with
    | nil => intro s h5 h300; exact ⟨h5, h300⟩
    | cons u rest ih =>
        intro s h5 h300
        simp only [List.foldl_cons]
        refine ih _ ?_ ?_ <;>
          rw [setConfig_rateLimitSeconds s u] <;>
          cases hu : u.rateLimitSeconds <;> simp only []
        · exact h5
        · exact (clamp_mem (by norm_num)).1
        · exact h300
        · exact (clamp_mem (by norm_num)).2
  exact haux updates (SelfHealing.create c) hstart.1 hstart.2

/-- Witness for the amended C10 at a concrete input. -/
theorem rate_limit_seconds_invariant_witness :
    5 ≤ (SelfHealing.getConfig ([({ rateLimitSeconds := some 1000 } :
      PartialSelfHealConfig)].foldl SelfHealing.setConfig
      (SelfHealing.create {}))).rateLimitSeconds ∧
    (SelfHealing.getConfig ([({ rateLimitSeconds := some 1000 } :
      PartialSelfHealConfig)].foldl SelfHealing.setConfig
      (SelfHealing.create {}))).rateLimitSeconds ≤ 300 :=
  rate_limit_seconds_invariant {} [{ rateLimitSeconds := some 1000 }]
    (fun r hr => Option.noConfusion hr)

/-! ## Counting helpers for detect output -/

namespace AnomalyDetector

theorem filterMap4_eq (o1 o2 o3 o4 : Option AiEvent) :
    [o1, o2, o3, o4].filterMap id = o1.toList ++ o2.toList ++ o3.toList ++ o4.toList := by
  cases o1 <;> cases o2 <;> cases o3 <;> cases o4 <;> rfl

theorem filterMap3_eq (o1 o2 o3 : Option AiEvent) :
    [o1, o2, o3].filterMap id = o1.toList ++ o2.toList ++ o3.toList := by
  cases o1 <;> cases o2 <;> cases o3 <;> rfl

theorem countP_toList_le_one (p : AiEvent → Bool) (o : Option AiEvent) :
    o.toList.countP p ≤ 1 := by
  cases o with
  | none => simp
  | some e =>
      by_cases hp : p e <;>
        simp [List.countP_cons, hp]

theorem countP_toList_eq_zero {p : AiEvent → Bool} {o : Option AiEvent}
    (h : ∀ e, o = some e → p e = false) : o.toList.countP p = 0 := by
  cases o with
  | none => rfl
  | some e => simp [List.countP_cons, h e rfl]

theorem countP_toList_isSome {p : AiEvent → Bool} (o : Option AiEvent)
    (h : ∀ e, o = some e → p e = true) :
    o.toList.countP p = if o.isSome then 1 else 0 := by
  cases o with
  | none => rfl
  | some e => simp [List.countP_cons, h e rfl]

theorem lastN_length {α : Type} (n : Nat) (l : List α) :
    (lastN n l).length = l.length - (l.length - n) :=
  List.length_drop _ _

theorem detectRamLeak_fires_iff (w : List MetricsSample) (l n : ℚ) :
    (detectRamLeak w l n).1.isSome = true ↔
      (20000 ≤ n - l ∧ 25 ≤ w.length ∧
       80 ≤ ((lastN 25 w).map fun x => x.ram).getLastD 0 ∧
       8 ≤ ((lastN 25 w).map fun x => x.ram).getLastD 0 -
         ((lastN 25 w).map fun x => x.ram).headD 0 ∧
       (0.22 : ℚ) ≤ olsSlope ((lastN 25 w).map fun x => x.ram)) := by
  have hlen := lastN_length 25 w
  simp only [detectRamLeak]
  split
  · rename_i h
    simp only [Option.isSome_none, Bool.false_eq_true, false_iff]
    rintro ⟨h1, -⟩
    linarith
  · rename_i h
    split
    · rename_i h2
      simp only [Option.isSome_none, Bool.false_eq_true, false_iff]
      rintro ⟨-, h25, -⟩
      omega
    · rename_i h2
      split
      · rename_i h3
        simp only [Option.isSome_some, true_iff]
        exact ⟨by linarith [not_lt.mp h], by omega, h3.1, h3.2.1, h3.2.2⟩
      · rename_i h3
        simp only [Option.isSome_none, Bool.false_eq_true, false_iff]
        rintro ⟨-, -, ha, hb, hc⟩
        exact h3 ⟨ha, hb, hc⟩

theorem detectRamLeak_severity {w : List MetricsSample} {l n : ℚ} {e : AiEvent}
    (h : (detectRamLeak w l n).1 = some e) :
    e.severity = if 92 ≤ ((lastN 25 w).map fun x => x.ram).getLastD 0
      then AiSeverity.critical else AiSeverity.warn := by
  simp only [detectRamLeak] at h
  split at h
  · simp at h
  · split at h
    · simp at h
    · split at h
      · simp only [Option.some.injEq] at h
        subst h
        rfl
      · simp at h

theorem absCpuStep_countP_ne {k : AiEventType} (h : k ≠ .cpu_spike)
    (last : MetricsSample) (src : String) (t : SpikeTable) (now : ℚ) :
    ((absCpuStep last src t now).1).toList.countP (fun e => decide (e.type = k)) = 0 :=
  countP_toList_eq_zero fun e he => by
    obtain ⟨hty, -⟩ := absCpuStep_fst_some last src t now he
    rw [hty]
    exact decide_eq_false fun hh => h hh.symm

theorem absRamStep_countP_ne {k : AiEventType} (h : k ≠ .ram_spike)
    (last : MetricsSample) (src : String) (t : SpikeTable) (now : ℚ) :
    ((absRamStep last src t now).1).toList.countP (fun e => decide (e.type = k)) = 0 :=
  countP_toList_eq_zero fun e he => by
    obtain ⟨hty, -⟩ := absRamStep_fst_some last src t now he
    rw [hty]
    exact decide_eq_false fun hh => h hh.symm

theorem absIoStep_countP_ne {k : AiEventType} (h : k ≠ .io_spike)
    (last : MetricsSample) (src : String) (t : SpikeTable) (now : ℚ) :
    ((absIoStep last src t now).1).toList.countP (fun e => decide (e.type = k)) = 0 :=
  countP_toList_eq_zero fun e he => by
    obtain ⟨hty, -⟩ := absIoStep_fst_some last src t now he
    rw [hty]
    exact decide_eq_false fun hh => h hh.symm

theorem absDiskStep_countP_ne {k : AiEventType} (h : k ≠ .disk_full)
    (last : MetricsSample) (src : String) (t : SpikeTable) (now : ℚ) :
    ((absDiskStep last src t now).1).toList.countP (fun e => decide (e.type = k)) = 0 :=
  countP_toList_eq_zero fun e he => by
    obtain ⟨hty, -⟩ := absDiskStep_fst_some last src t now he
    rw [hty]
    exact decide_eq_false fun hh => h hh.symm

theorem statCpuStep_countP_ne {k : AiEventType} (h : k ≠ .cpu_spike)
    (last : MetricsSample) (src : String) (t : SpikeTable) (now mean v : ℚ) :
    ((statCpuStep last src t now mean v).1).toList.countP
      (fun e => decide (e.type = k)) = 0 :=
  countP_toList_eq_zero fun e he => by
    obtain ⟨hty, -⟩ := statCpuStep_fst_some last src t now mean v he
    rw [hty]
    exact decide_eq_false fun hh => h hh.symm

theorem statRamStep_countP_ne {k : AiEventType} (h : k ≠ .ram_spike)
    (last : MetricsSample) (src : String) (t : SpikeTable) (now mean v : ℚ) :
    ((statRamStep last src t now mean v).1).toList.countP
      (fun e => decide (e.type = k)) = 0 :=
  countP_toList_eq_zero fun e he => by
    obtain ⟨hty, -⟩ := statRamStep_fst_some last src t now mean v he
    rw [hty]
    exact decide_eq_false fun hh => h hh.symm

theorem statIoStep_countP_ne {k : AiEventType} (h : k ≠ .io_spike)
    (last : MetricsSample) (src : String) (t : SpikeTable) (now mean v : ℚ) :
    ((statIoStep last src t now mean v).1).toList.countP
      (fun e => decide (e.type = k)) = 0 :=
  countP_toList_eq_zero fun e he => by
    obtain ⟨hty, -⟩ := statIoStep_fst_some last src t now mean v he
    rw [hty]
    exact decide_eq_false fun hh => h hh.symm

theorem detectRamLeak_countP_ne {k : AiEventType} (h : k ≠ .ram_leak)
    (w : List MetricsSample) (l n : ℚ) :
    ((detectRamLeak w l n).1).toList.countP (fun e => decide (e.type = k)) = 0 :=
  countP_toList_eq_zero fun e he => by
    rw [detectRamLeak_fst_some he]
    exact decide_eq_false fun hh => h hh.symm

theorem detectAbs_countP_ram_leak (last : MetricsSample) (src : String)
    (t : SpikeTable) (now : ℚ) :
    (detectAbs last src t now).1.countP (fun e => decide (e.type = .ram_leak)) = 0 := by
  simp only [detectAbs, filterMap4_eq, List.countP_append,
    absCpuStep_countP_ne (by decide : AiEventType.ram_leak ≠ .cpu_spike),
    absRamStep_countP_ne (by decide : AiEventType.ram_leak ≠ .ram_spike),
    absIoStep_countP_ne (by decide : AiEventType.ram_leak ≠ .io_spike),
    absDiskStep_countP_ne (by decide : AiEventType.ram_leak ≠ .disk_full)]

theorem detectStat_countP_ram_leak (last : MetricsSample) (src : String)
    (baseline : List MetricsSample) (t : SpikeTable) (now : ℚ) :
    (detectStat last src baseline t now).1.countP
      (fun e => decide (e.type = .ram_leak)) = 0 := by
  simp only [detectStat, filterMap3_eq, List.countP_append,
    statCpuStep_countP_ne (by decide : AiEventType.ram_leak ≠ .cpu_spike),
    statRamStep_countP_ne (by decide : AiEventType.ram_leak ≠ .ram_spike),
    statIoStep_countP_ne (by decide : AiEventType.ram_leak ≠ .io_spike)]

/-- detect emits the ram_leak kind exactly when the trend-layer guard
of detectRamLeak holds. -/
theorem detect_ram_leak_countP (st : AnomalyDetector) (src : String) (now : ℚ) :
    (detect st src now).1.countP (fun e => decide (e.type = AiEventType.ram_leak)) =
      if 20000 ≤ now - st.lastLeakAtMs ∧ 25 ≤ st.window.length ∧
         80 ≤ ((lastN 25 st.window).map fun x => x.ram).getLastD 0 ∧
         8 ≤ ((lastN 25 st.window).map fun x => x.ram).getLastD 0 -
           ((lastN 25 st.window).map fun x => x.ram).headD 0 ∧
         (0.22 : ℚ) ≤ olsSlope ((lastN 25 st.window).map fun x => x.ram)
      then 1 else 0 := by
  simp only [detect]
  split
  · rename_i h1
    rw [List.countP_nil, if_neg]
    rintro ⟨-, h25, -⟩
    omega
  · split
    · rename_i h1 h8
      rw [detectAbs_countP_ram_leak, if_neg]
      rintro ⟨-, h25, -⟩
      omega
    · rename_i h1 h8
      rw [List.countP_append, List.countP_append, detectAbs_countP_ram_leak,
        detectStat_countP_ram_leak,
        countP_toList_isSome _ (fun e he => by
          rw [detectRamLeak_fst_some he]
          exact decide_eq_true rfl)]
      by_cases hcond : 20000 ≤ now - st.lastLeakAtMs ∧ 25 ≤ st.window.length ∧
          80 ≤ ((lastN 25 st.window).map fun x => x.ram).getLastD 0 ∧
          8 ≤ ((lastN 25 st.window).map fun x => x.ram).getLastD 0 -
            ((lastN 25 st.window).map fun x => x.ram).headD 0 ∧
          (0.22 : ℚ) ≤ olsSlope ((lastN 25 st.window).map fun x => x.ram)
      · rw [if_pos ((detectRamLeak_fires_iff st.window st.lastLeakAtMs now).mpr hcond),
          if_pos hcond]
      · rw [if_neg, if_neg hcond]
        intro hs
        exact hcond ((detectRamLeak_fires_iff st.window st.lastLeakAtMs now).mp hs)

/-- Every ram_leak event detect emits carries the severity dictated by
the latest of the last 25 RAM readings. -/
theorem detect_ram_leak_severity_all (st : AnomalyDetector) (src : String) (now : ℚ) :
    ∀ e ∈ (detect st src now).1, e.type = AiEventType.ram_leak →
      e.severity = if 92 ≤ ((lastN 25 st.window).map fun x => x.ram).getLastD 0
        then AiSeverity.critical else AiSeverity.warn := by
  intro e he hty
  rcases detect_mem he with h | ⟨h8, h | h⟩
  · rcases detectAbs_mem _ _ _ _ h with ⟨h1, -⟩ | ⟨h1, -⟩ | ⟨h1, -⟩ | ⟨h1, -⟩ <;>
      (rw [hty] at h1; exact absurd h1 (by decide))
  · rcases detectStat_mem _ _ _ _ h with ⟨h1, -⟩ | ⟨h1, -⟩ | ⟨h1, -⟩ <;>
      (rw [hty] at h1; exact absurd h1 (by decide))
  · exact detectRamLeak_severity h

theorem detectAbs_countP_le_one (last : MetricsSample) (src : String) (t : SpikeTable)
    (now : ℚ) (k : AiEventType) :
    (detectAbs last src t now).1.countP (fun e => decide (e.type = k)) ≤ 1 := by
  simp only [detectAbs, filterMap4_eq, List.countP_append]
  cases k with
  | cpu_spike =>
      rw [absRamStep_countP_ne (by decide), absIoStep_countP_ne (by decide),
        absDiskStep_countP_ne (by decide)]
      simp only [Nat.add_zero, Nat.zero_add]
      exact countP_toList_le_one _ _
  | ram_spike =>
      rw [absCpuStep_countP_ne (by decide), absIoStep_countP_ne (by decide),
        absDiskStep_countP_ne (by decide)]
      simp only [Nat.add_zero, Nat.zero_add]
      exact countP_toList_le_one _ _
  | io_spike =>
      rw [absCpuStep_countP_ne (by decide), absRamStep_countP_ne (by decide),
        absDiskStep_countP_ne (by decide)]
      simp only [Nat.add_zero, Nat.zero_add]
      exact countP_toList_le_one _ _
  | disk_full =>
      rw [absCpuStep_countP_ne (by decide), absRamStep_countP_ne (by decide),
        absIoStep_countP_ne (by decide)]
      simp only [Nat.add_zero, Nat.zero_add]
      exact countP_toList_le_one _ _
  | ram_leak =>
      rw [absCpuStep_countP_ne (by decide), absRamStep_countP_ne (by decide),
        absIoStep_countP_ne (by decide), absDiskStep_countP_ne (by decide)]
      omega
  | agent_unreachable =>
      rw [absCpuStep_countP_ne (by decide), absRamStep_countP_ne (by decide),
        absIoStep_countP_ne (by decide), absDiskStep_countP_ne (by decide)]
      omega
  | rate_limit_enabled =>
      rw [absCpuStep_countP_ne (by decide), absRamStep_countP_ne (by decide),
        absIoStep_countP_ne (by decide), absDiskStep_countP_ne (by decide)]
      omega
  | node_isolated =>
      rw [absCpuStep_countP_ne (by decide), absRamStep_countP_ne (by decide),
        absIoStep_countP_ne (by decide), absDiskStep_countP_ne (by decide)]
      omega
  | selfheal_noop =>
      rw [absCpuStep_countP_ne (by decide), absRamStep_countP_ne (by decide),
        absIoStep_countP_ne (by decide), absDiskStep_countP_ne (by decide)]
      omega

/-- C6: a single detect call never returns two events of the same
kind: for every kind at most one event of that kind is emitted per
tick, the absolute and statistical layers sharing one cooldown table
per kind (and, for a kind both layers could emit, mutually exclusive
guards). -/
theorem detect_no_duplicate_kinds (st : AnomalyDetector) (src : String) (now : ℚ)
    (k : AiEventType) :
    (detect st src now).1.countP (fun e => decide (e.type = k)) ≤ 1 := by
  simp only [detect]
  split
  · simp
  · split
    · exact detectAbs_countP_le_one _ _ _ _ k
    · rw [List.countP_append, List.countP_append]
      simp only [detectAbs, detectStat, filterMap4_eq, filterMap3_eq,
        List.countP_append]
      cases k with
      | cpu_spike =>
          rw [absRamStep_countP_ne (by decide), absIoStep_countP_ne (by decide),
            absDiskStep_countP_ne (by decide), statRamStep_countP_ne (by decide),
            statIoStep_countP_ne (by decide), detectRamLeak_countP_ne (by decide)]
          by_cases h95 : 95 ≤ (lastSample st.window).cpu
          · rw [statCpuStep_of_neg _ _ _ _ _ _ (fun hc => absurd hc.1 (not_lt.mpr h95))]
            simp only [Option.toList_none, List.countP_nil, Nat.add_zero, Nat.zero_add]
            exact countP_toList_le_one _ _
          · rw [absCpuStep_of_neg _ _ _ _ (fun hc => h95 hc.1)]
            simp only [Option.toList_none, List.countP_nil, Nat.add_zero, Nat.zero_add]
            exact countP_toList_le_one _ _
      | ram_spike =>
          rw [absCpuStep_countP_ne (by decide), absIoStep_countP_ne (by decide),
            absDiskStep_countP_ne (by decide), statCpuStep_countP_ne (by decide),
            statIoStep_countP_ne (by decide), detectRamLeak_countP_ne (by decide)]
          by_cases h95 : 95 ≤ (lastSample st.window).ram
          · rw [statRamStep_of_neg _ _ _ _ _ _ (fun hc => absurd hc.1 (not_lt.mpr h95))]
            simp only [Option.toList_none, List.countP_nil, Nat.add_zero, Nat.zero_add]
            exact countP_toList_le_one _ _
          · rw [absRamStep_of_neg _ _ _ _ (fun hc => h95 hc.1)]
            simp only [Option.toList_none, List.countP_nil, Nat.add_zero, Nat.zero_add]
            exact countP_toList_le_one _ _
      | io_spike =>
          rw [absCpuStep_countP_ne (by decide), absRamStep_countP_ne (by decide),
            absDiskStep_countP_ne (by decide), statCpuStep_countP_ne (by decide),
            statRamStep_countP_ne (by decide), detectRamLeak_countP_ne (by decide)]
          by_cases h95 : 95 ≤ (lastSample st.window).io
          · rw [statIoStep_of_neg _ _ _ _ _ _ (fun hc => absurd hc.1 (not_lt.mpr h95))]
            simp only [Option.toList_none, List.countP_nil, Nat.add_zero, Nat.zero_add]
            exact countP_toList_le_one _ _
          · rw [absIoStep_of_neg _ _ _ _ (fun hc => h95 hc.1)]
            simp only [Option.toList_none, List.countP_nil, Nat.add_zero, Nat.zero_add]
            exact countP_toList_le_one _ _
      | disk_full =>
          rw [absCpuStep_countP_ne (by decide), absRamStep_countP_ne (by decide),
            absIoStep_countP_ne (by decide), statCpuStep_countP_ne (by decide),
            statRamStep_countP_ne (by decide), statIoStep_countP_ne (by decide),
            detectRamLeak_countP_ne (by decide)]
          simp only [Nat.add_zero, Nat.zero_add]
          exact countP_toList_le_one _ _
      | ram_leak =>
          rw [absCpuStep_countP_ne (by decide), absRamStep_countP_ne (by decide),
            absIoStep_countP_ne (by decide), absDiskStep_countP_ne (by decide),
            statCpuStep_countP_ne (by decide), statRamStep_countP_ne (by decide),
            statIoStep_countP_ne (by decide)]
          simp only [Nat.add_zero, Nat.zero_add]
          exact countP_toList_le_one _ _
      | agent_unreachable =>
          rw [absCpuStep_countP_ne (by decide), absRamStep_countP_ne (by decide),
            absIoStep_countP_ne (by decide), absDiskStep_countP_ne (by decide),
            statCpuStep_countP_ne (by decide), statRamStep_countP_ne (by decide),
            statIoStep_countP_ne (by decide), detectRamLeak_countP_ne (by decide)]
          omega
      | rate_limit_enabled =>
          rw [absCpuStep_countP_ne (by decide), absRamStep_countP_ne (by decide),
            absIoStep_countP_ne (by decide), absDiskStep_countP_ne (by decide),
            statCpuStep_countP_ne (by decide), statRamStep_countP_ne (by decide),
            statIoStep_countP_ne (by decide), detectRamLeak_countP_ne (by decide)]
          omega
      | node_isolated =>
          rw [absCpuStep_countP_ne (by decide), absRamStep_countP_ne (by decide),
            absIoStep_countP_ne (by decide), absDiskStep_countP_ne (by decide),
            statCpuStep_countP_ne (by decide), statRamStep_countP_ne (by decide),
            statIoStep_countP_ne (by decide), detectRamLeak_countP_ne (by decide)]
          omega
      | selfheal_noop =>
          rw [absCpuStep_countP_ne (by decide), absRamStep_countP_ne (by decide),
            absIoStep_countP_ne (by decide), absDiskStep_countP_ne (by decide),
            statCpuStep_countP_ne (by decide), statRamStep_countP_ne (by decide),
            statIoStep_countP_ne (by decide), detectRamLeak_countP_ne (by decide)]
          omega

theorem detectStat_mem_of_cpu {baseline : List MetricsSample} {e : AiEvent}
    (he : (statCpuStep last src t now (meanOf (baseline.map fun x => x.cpu))
      (varOf (baseline.map fun x => x.cpu))).1 = some e) :
    e ∈ (detectStat last src baseline t now).1 := by
  simp only [detectStat, List.mem_filterMap, id_eq]
  exact ⟨_, List.mem_cons_self _ _, he⟩

theorem detectStat_mem_of_ram {baseline : List MetricsSample} {e : AiEvent}
    (he : (statRamStep last src (statCpuStep last src t now
        (meanOf (baseline.map fun x => x.cpu)) (varOf (baseline.map fun x => x.cpu))).2
      now (meanOf (baseline.map fun x => x.ram))
      (varOf (baseline.map fun x => x.ram))).1 = some e) :
    e ∈ (detectStat last src baseline t now).1 := by
  simp only [detectStat, List.mem_filterMap, id_eq]
  exact ⟨_, List.mem_cons_of_mem _ (List.mem_cons_self _ _), he⟩

theorem detectStat_mem_of_io {baseline : List MetricsSample} {e : AiEvent}
    (he : (statIoStep last src (statRamStep last src (statCpuStep last src t now
        (meanOf (baseline.map fun x => x.cpu)) (varOf (baseline.map fun x => x.cpu))).2
      now (meanOf (baseline.map fun x => x.ram))
      (varOf (baseline.map fun x => x.ram))).2
      now (meanOf (baseline.map fun x => x.io))
      (varOf (baseline.map fun x => x.io))).1 = some e) :
    e ∈ (detectStat last src baseline t now).1 := by
  simp only [detectStat, List.mem_filterMap, id_eq]
  exact ⟨_, List.mem_cons_of_mem _ (List.mem_cons_of_mem _ (List.mem_cons_self _ _)), he⟩

/-- The statistical layer emits a warn cpu_spike exactly when the
history holds at least 8 samples, the latest cpu is in [85, 95), the
z-score condition holds over the baseline, and the cpu kind is not in
cooldown. -/
theorem detect_warn_cpu_iff (st : AnomalyDetector) (src : String) (now : ℚ) :
    (∃ e ∈ (detect st src now).1, e.type = .cpu_spike ∧ e.severity = .warn) ↔
      (8 ≤ st.window.length ∧ (lastSample st.window).cpu < 95 ∧
       85 ≤ (lastSample st.window).cpu ∧
       zGE (lastSample st.window).cpu
         (meanOf ((baselineOf st.window).map fun x => x.cpu))
         (varOf ((baselineOf st.window).map fun x => x.cpu)) (2.8 : ℚ) = true ∧
       ¬ now - st.lastSpikeAtMs.cpu < 15000) := by
  constructor
  · rintro ⟨e, he, hty, hsev⟩
    rcases detect_mem he with h | ⟨h8, h | h⟩
    · rcases detectAbs_mem _ _ _ _ h with ⟨-, h2, -⟩ | ⟨h1, -⟩ | ⟨h1, -⟩ | ⟨h1, -⟩
      · rw [hsev] at h2
        exact absurd h2 (by decide)
      · rw [hty] at h1
        exact absurd h1 (by decide)
      · rw [hty] at h1
        exact absurd h1 (by decide)
      · rw [hty] at h1
        exact absurd h1 (by decide)
    · rcases detectStat_mem _ _ _ _ h with ⟨-, -, hlt, hge, hz, hcd⟩ | ⟨h1, -⟩ | ⟨h1, -⟩
      · rw [detectAbs_snd_cpu, if_neg (fun hc => absurd hc.1 (not_le.mpr hlt))] at hcd
        exact ⟨h8, hlt, hge, hz, hcd⟩
      · rw [hty] at h1
        exact absurd h1 (by decide)
      · rw [hty] at h1
        exact absurd h1 (by decide)
    · have h1 := detectRamLeak_fst_some h
      rw [hty] at h1
      exact absurd h1 (by decide)
  · rintro ⟨h8, hlt, hge, hz, hcd⟩
    have htbl : ((detectAbs (lastSample st.window) src st.lastSpikeAtMs now).2).cpu =
        st.lastSpikeAtMs.cpu := by
      rw [detectAbs_snd_cpu, if_neg (fun hc => absurd hc.1 (not_le.mpr hlt))]
    have hcd2 : ¬ now -
        ((detectAbs (lastSample st.window) src st.lastSpikeAtMs now).2).cpu < 15000 := by
      rw [htbl]
      exact hcd
    have hx := statCpuStep_fires (lastSample st.window) src
      (detectAbs (lastSample st.window) src st.lastSpikeAtMs now).2 now
      (meanOf ((baselineOf st.window).map fun x => x.cpu))
      (varOf ((baselineOf st.window).map fun x => x.cpu))
    obtain ⟨e, he, hty, hsev⟩ := hx ⟨hlt, hge, hz, hcd2⟩
    have hm := detectStat_mem_of_cpu he
    exact ⟨e, detect_mem_of_stat h8 hm, hty, hsev⟩

/-- The warn ram_spike analogue of detect_warn_cpu_iff. -/
theorem detect_warn_ram_iff (st : AnomalyDetector) (src : String) (now : ℚ) :
    (∃ e ∈ (detect st src now).1, e.type = .ram_spike ∧ e.severity = .warn) ↔
      (8 ≤ st.window.length ∧ (lastSample st.window).ram < 95 ∧
       85 ≤ (lastSample st.window).ram ∧
       zGE (lastSample st.window).ram
         (meanOf ((baselineOf st.window).map fun x => x.ram))
         (varOf ((baselineOf st.window).map fun x => x.ram)) (2.8 : ℚ) = true ∧
       ¬ now - st.lastSpikeAtMs.ram < 15000) := by
  constructor
  · rintro ⟨e, he, hty, hsev⟩
    rcases detect_mem he with h | ⟨h8, h | h⟩
    · rcases detectAbs_mem _ _ _ _ h with ⟨h1, -⟩ | ⟨-, h2, -⟩ | ⟨h1, -⟩ | ⟨h1, -⟩
      · rw [hty] at h1
        exact absurd h1 (by decide)
      · rw [hsev] at h2
        exact absurd h2 (by decide)
      · rw [hty] at h1
        exact absurd h1 (by decide)
      · rw [hty] at h1
        exact absurd h1 (by decide)
    · rcases detectStat_mem _ _ _ _ h with ⟨h1, -⟩ | ⟨-, -, hlt, hge, hz, hcd⟩ | ⟨h1, -⟩
      · rw [hty] at h1
        exact absurd h1 (by decide)
      · rw [detectAbs_snd_ram, if_neg (fun hc => absurd hc.1 (not_le.mpr hlt))] at hcd
        exact ⟨h8, hlt, hge, hz, hcd⟩
      · rw [hty] at h1
        exact absurd h1 (by decide)
    · have h1 := detectRamLeak_fst_some h
      rw [hty] at h1
      exact absurd h1 (by decide)
  · rintro ⟨h8, hlt, hge, hz, hcd⟩
    have htbl : ((detectAbs (lastSample st.window) src st.lastSpikeAtMs now).2).ram =
        st.lastSpikeAtMs.ram := by
      rw [detectAbs_snd_ram, if_neg (fun hc => absurd hc.1 (not_le.mpr hlt))]
    have hcd2 : ¬ now - ((statCpuStep (lastSample st.window) src
        (detectAbs (lastSample st.window) src st.lastSpikeAtMs now).2 now
        (meanOf ((baselineOf st.window).map fun x => x.cpu))
        (varOf ((baselineOf st.window).map fun x => x.cpu))).2).ram < 15000 := by
      rw [statCpuStep_snd_ram, htbl]
      exact hcd
    have hx := statRamStep_fires (lastSample st.window) src
      (statCpuStep (lastSample st.window) src
        (detectAbs (lastSample st.window) src st.lastSpikeAtMs now).2 now
        (meanOf ((baselineOf st.window).map fun x => x.cpu))
        (varOf ((baselineOf st.window).map fun x => x.cpu))).2 now
      (meanOf ((baselineOf st.window).map fun x => x.ram))
      (varOf ((baselineOf st.window).map fun x => x.ram))
    obtain ⟨e, he, hty, hsev⟩ := hx ⟨hlt, hge, hz, hcd2⟩
    have hm := detectStat_mem_of_ram he
    exact ⟨e, detect_mem_of_stat h8 hm, hty, hsev⟩

/-- The warn io_spike analogue of detect_warn_cpu_iff (threshold 2.6,
cooldown 12s). -/
theorem detect_warn_io_iff (st : AnomalyDetector) (src : String) (now : ℚ) :
    (∃ e ∈ (detect st src now).1, e.type = .io_spike ∧ e.severity = .warn) ↔
      (8 ≤ st.window.length ∧ (lastSample st.window).io < 95 ∧
       85 ≤ (lastSample st.window).io ∧
       zGE (lastSample st.window).io
         (meanOf ((baselineOf st.window).map fun x => x.io))
         (varOf ((baselineOf st.window).map fun x => x.io)) (2.6 : ℚ) = true ∧
       ¬ now - st.lastSpikeAtMs.io < 12000) := by
  constructor
  · rintro ⟨e, he, hty, hsev⟩
    rcases detect_mem he with h | ⟨h8, h | h⟩
    · rcases detectAbs_mem _ _ _ _ h with ⟨h1, -⟩ | ⟨h1, -⟩ | ⟨-, h2, -⟩ | ⟨h1, -⟩
      · rw [hty] at h1
        exact absurd h1 (by decide)
      · rw [hty] at h1
        exact absurd h1 (by decide)
      · rw [hsev] at h2
        exact absurd h2 (by decide)
      · rw [hty] at h1
        exact absurd h1 (by decide)
    · rcases detectStat_mem _ _ _ _ h with ⟨h1, -⟩ | ⟨h1, -⟩ | ⟨-, -, hlt, hge, hz, hcd⟩
      · rw [hty] at h1
        exact absurd h1 (by decide)
      · rw [hty] at h1
        exact absurd h1 (by decide)
      · rw [detectAbs_snd_io, if_neg (fun hc => absurd hc.1 (not_le.mpr hlt))] at hcd
        exact ⟨h8, hlt, hge, hz, hcd⟩
    · have h1 := detectRamLeak_fst_some h
      rw [hty] at h1
      exact absurd h1 (by decide)
  · rintro ⟨h8, hlt, hge, hz, hcd⟩
    have htbl : ((detectAbs (lastSample st.window) src st.lastSpikeAtMs now).2).io =
        st.lastSpikeAtMs.io := by
      rw [detectAbs_snd_io, if_neg (fun hc => absurd hc.1 (not_le.mpr hlt))]
    have hcd2 : ¬ now - ((statRamStep (lastSample st.window) src
        (statCpuStep (lastSample st.window) src
          (detectAbs (lastSample st.window) src st.lastSpikeAtMs now).2 now
          (meanOf ((baselineOf st.window).map fun x => x.cpu))
          (varOf ((baselineOf st.window).map fun x => x.cpu))).2 now
        (meanOf ((baselineOf st.window).map fun x => x.ram))
        (varOf ((baselineOf st.window).map fun x => x.ram))).2).io < 12000 := by
      rw [statRamStep_snd_io, statCpuStep_snd_io, htbl]
      exact hcd
    have hx := statIoStep_fires (lastSample st.window) src
      (statRamStep (lastSample st.window) src
        (statCpuStep (lastSample st.window) src
          (detectAbs (lastSample st.window) src st.lastSpikeAtMs now).2 now
          (meanOf ((baselineOf st.window).map fun x => x.cpu))
          (varOf ((baselineOf st.window).map fun x => x.cpu))).2 now
        (meanOf ((baselineOf st.window).map fun x => x.ram))
        (varOf ((baselineOf st.window).map fun x => x.ram))).2 now
      (meanOf ((baselineOf st.window).map fun x => x.io))
      (varOf ((baselineOf st.window).map fun x => x.io))
    obtain ⟨e, he, hty, hsev⟩ := hx ⟨hlt, hge, hz, hcd2⟩
    have hm := detectStat_mem_of_io he
    exact ⟨e, detect_mem_of_stat h8 hm, hty, hsev⟩

end AnomalyDetector

/-- A sample carrying only a CPU reading. -/
def cpuOnly (q : ℚ) : MetricsSample :=
  { cpu := q, ram := 0, disk := 0, io := 0, errors := 0 }

/-- Seven baseline samples at cpu = 80 followed by one at cpu = 85:
the baseline is degenerate (variance 0) and the latest value equals
mean + 5 exactly. -/
def statEdgeDet : AnomalyDetector :=
  { window := [cpuOnly 80, cpuOnly 80, cpuOnly 80, cpuOnly 80, cpuOnly 80,
               cpuOnly 80, cpuOnly 80, cpuOnly 85] }

/-- C7 counterexample: with a degenerate baseline whose mean is 80 and
a latest cpu of exactly 85 = mean + 5 — which does not strictly exceed
mean + 5 — detect still emits a warn cpu_spike, because the code's
saturation test is "latest >= mean + 5", not strict. -/
theorem statistical_layer_strict_counterexample :
    (∃ e ∈ (AnomalyDetector.detect statEdgeDet "demo" 1000000).1,
      e.type = .cpu_spike ∧ e.severity = .warn) ∧
    varOf ((baselineOf statEdgeDet.window).map fun x => x.cpu) ≤ 1/1000000 ∧
    ¬ (meanOf ((baselineOf statEdgeDet.window).map fun x => x.cpu) + 5 <
      (lastSample statEdgeDet.window).cpu) := by
  have hbase : (baselineOf statEdgeDet.window).map (fun x => x.cpu) =
      [80, 80, 80, 80, 80, 80, 80] := rfl
  have hlast : (lastSample statEdgeDet.window).cpu = 85 := rfl
  have hmean : meanOf [80, 80, 80, 80, 80, 80, 80] = 80 := by
    norm_num [meanOf, List.sum_cons]
  have hvar : varOf [80, 80, 80, 80, 80, 80, 80] = 0 := by
    norm_num [varOf, meanOf, List.sum_cons]
  refine ⟨?_, ?_, ?_⟩
  · refine (AnomalyDetector.detect_warn_cpu_iff statEdgeDet "demo" 1000000).mpr
      ⟨?_, ?_, ?_, ?_, ?_⟩
    · simp [statEdgeDet]
    · rw [hlast]
      norm_num
    · rw [hlast]
    · rw [hbase, hlast, hmean, hvar]
      simp only [zGE, decide_eq_true_eq]
      rw [if_neg (by norm_num)]
      norm_num
    · show ¬ (1000000 : ℚ) - 0 < 15000
      norm_num
  · rw [hbase, hvar]
    norm_num
  · rw [hbase, hlast, hmean]
    norm_num

/-- C7 (amended: the code's degenerate-baseline saturation test is
non-strict — it also fires when the latest value equals mean + 5):
when the history holds at least 8 samples, the statistical layer emits
a spike of a metric's kind exactly when the latest value lies in
[85, 95), the z-score over the baseline (last 60 samples excluding the
newest; (latest - mean)/std when std > 0.001, saturated when the
baseline is degenerate and the latest value is at least mean + 5)
meets the per-metric threshold (2.8 for CPU and RAM, 2.6 for I/O), and
the kind is not in cooldown; every event this layer emits has severity
warn. -/
theorem statistical_layer_characterization (st : AnomalyDetector) (src : String)
    (now : ℚ) :
    ((∃ e ∈ (AnomalyDetector.detect st src now).1,
        e.type = .cpu_spike ∧ e.severity = .warn) ↔
      (8 ≤ st.window.length ∧ (lastSample st.window).cpu < 95 ∧
       85 ≤ (lastSample st.window).cpu ∧
       zGE (lastSample st.window).cpu
         (meanOf ((baselineOf st.window).map fun x => x.cpu))
         (varOf ((baselineOf st.window).map fun x => x.cpu)) (2.8 : ℚ) = true ∧
       ¬ now - st.lastSpikeAtMs.cpu < 15000)) ∧
    ((∃ e ∈ (AnomalyDetector.detect st src now).1,
        e.type = .ram_spike ∧ e.severity = .warn) ↔
      (8 ≤ st.window.length ∧ (lastSample st.window).ram < 95 ∧
       85 ≤ (lastSample st.window).ram ∧
       zGE (lastSample st.window).ram
         (meanOf ((baselineOf st.window).map fun x => x.ram))
         (varOf ((baselineOf st.window).map fun x => x.ram)) (2.8 : ℚ) = true ∧
       ¬ now - st.lastSpikeAtMs.ram < 15000)) ∧
    ((∃ e ∈ (AnomalyDetector.detect st src now).1,
        e.type = .io_spike ∧ e.severity = .warn) ↔
      (8 ≤ st.window.length ∧ (lastSample st.window).io < 95 ∧
       85 ≤ (lastSample st.window).io ∧
       zGE (lastSample st.window).io
         (meanOf ((baselineOf st.window).map fun x => x.io))
         (varOf ((baselineOf st.window).map fun x => x.io)) (2.6 : ℚ) = true ∧
       ¬ now - st.lastSpikeAtMs.io < 12000)) :=
  ⟨AnomalyDetector.detect_warn_cpu_iff st src now,
   AnomalyDetector.detect_warn_ram_iff st src now,
   AnomalyDetector.detect_warn_io_iff st src now⟩

/-- A sample carrying only a RAM reading. -/
def ramOnly (q : ℚ) : MetricsSample :=
  { cpu := 0, ram := q, disk := 0, io := 0, errors := 0 }

/-- 25 consecutive RAM readings rising linearly from 70 to 90
(70 + 20i/24 for i = 0..24). -/
def rampWindow25 : List MetricsSample :=
  [ramOnly 70, ramOnly (425/6), ramOnly (215/3), ramOnly (145/2), ramOnly (220/3),
   ramOnly (445/6), ramOnly 75, ramOnly (455/6), ramOnly (230/3), ramOnly (155/2),
   ramOnly (235/3), ramOnly (475/6), ramOnly 80, ramOnly (485/6), ramOnly (245/3),
   ramOnly (165/2), ramOnly (250/3), ramOnly (505/6), ramOnly 85, ramOnly (515/6),
   ramOnly (260/3), ramOnly (175/2), ramOnly (265/3), ramOnly (535/6), ramOnly 90]

/-- The same scenario one sample earlier (first 24 readings). -/
def rampWindow24 : List MetricsSample := rampWindow25.dropLast

/-- Detector state holding the 25-sample ramp. -/
def ramp25Det : AnomalyDetector := { window := rampWindow25 }

/-- Detector state holding the 24-sample ramp prefix. -/
def ramp24Det : AnomalyDetector := { window := rampWindow24 }

/-- C3: when at least 25 samples exist and at least 20s have elapsed
since the last leak event, detect emits a ram_leak exactly when over
the last 25 RAM readings the latest is at least 80, the rise is at
least 8 and the OLS slope is at least 0.22 — and then exactly one such
event, with severity critical iff the latest RAM is at least 92, else
warn.  In particular, for 25 readings rising linearly from 70 to 90,
detect returns exactly one ram_leak on the 25th sample and none on the
24th. -/
theorem detect_ram_leak_exactly_when :
    (∀ (st : AnomalyDetector) (src : String) (now : ℚ),
      (AnomalyDetector.detect st src now).1.countP
          (fun e => decide (e.type = AiEventType.ram_leak)) =
        if 20000 ≤ now - st.lastLeakAtMs ∧ 25 ≤ st.window.length ∧
           80 ≤ ((lastN 25 st.window).map fun x => x.ram).getLastD 0 ∧
           8 ≤ ((lastN 25 st.window).map fun x => x.ram).getLastD 0 -
             ((lastN 25 st.window).map fun x => x.ram).headD 0 ∧
           (0.22 : ℚ) ≤ olsSlope ((lastN 25 st.window).map fun x => x.ram)
        then 1 else 0) ∧
    (∀ (st : AnomalyDetector) (src : String) (now : ℚ),
      ∀ e ∈ (AnomalyDetector.detect st src now).1, e.type = AiEventType.ram_leak →
        e.severity = if 92 ≤ ((lastN 25 st.window).map fun x => x.ram).getLastD 0
          then AiSeverity.critical else AiSeverity.warn) ∧
    (AnomalyDetector.detect ramp24Det "demo" 1000000).1.countP
      (fun e => decide (e.type = AiEventType.ram_leak)) = 0 ∧
    (AnomalyDetector.detect ramp25Det "demo" 1000000).1.countP
      (fun e => decide (e.type = AiEventType.ram_leak)) = 1 := by
  have hys : (lastN 25 ramp25Det.window).map (fun x => x.ram) =
      [70, 425/6, 215/3, 145/2, 220/3, 445/6, 75, 455/6, 230/3, 155/2, 235/3,
       475/6, 80, 485/6, 245/3, 165/2, 250/3, 505/6, 85, 515/6, 260/3, 175/2,
       265/3, 535/6, 90] := by
    simp [ramp25Det, rampWindow25, lastN, ramOnly]
  have hrange : List.range 25 =
      [0, 1, 2, 3, 4, 5, 6, 7, 8, 9, 10, 11, 12, 13, 14, 15, 16, 17, 18, 19,
       20, 21, 22, 23, 24] := rfl
  refine ⟨AnomalyDetector.detect_ram_leak_countP,
    AnomalyDetector.detect_ram_leak_severity_all, ?_, ?_⟩
  · rw [AnomalyDetector.detect_ram_leak_countP, if_neg]
    rintro ⟨-, h25, -⟩
    have h24 : ramp24Det.window.length = 24 := by
      simp [ramp24Det, rampWindow24, rampWindow25]
    omega
  · rw [AnomalyDetector.detect_ram_leak_countP, if_pos]
    refine ⟨?_, ?_, ?_, ?_, ?_⟩
    · show (20000 : ℚ) ≤ 1000000 - 0
      norm_num
    · simp [ramp25Det, rampWindow25]
    · rw [hys]
      norm_num
    · rw [hys]
      norm_num
    · rw [hys]
      rw [olsSlope]
      norm_num [hrange, List.zip_cons_cons, List.sum_cons]

/-! ## Session-loop theorems -/

/-- A tick whose collection throws, fed the previous tick's resulting
shared controller and session state. -/
def tickFail (p : SelfHealing × OpsSession × List OpsMsg) (now : ℚ) :
    SelfHealing × OpsSession × List OpsMsg :=
  tick p.1 p.2.1 (Except.error ()) now

/-- Recognizes a published agent_unreachable AI event. -/
def agentMsgP : OpsMsg → Bool
  | .ai e => decide (e.type = .agent_unreachable)
  | _ => false

/-- C8: from a monitor-source session with a zero streak, three
consecutive collection failures publish error statuses carrying streak
counts 1, 2 and 3, switch the source to local, reset the streak to 0,
and publish exactly one agent_unreachable warn event across the three
ticks — not three. -/
theorem tick_failure_streak_fallback (sh : SelfHealing) (ss : OpsSession) (t1 t2 t3 : ℚ)
    (hiso : SelfHealing.isIsolated sh = false)
    (hsrc : ss.source = .monitor) (hurl : ss.monitorUrlOk = true)
    (hstreak : ss.errorStreak = 0) :
    (tickFail (tickFail (tick sh ss (Except.error ()) t1) t2) t3).2.1.source =
      SrcKind.local ∧
    (tickFail (tickFail (tick sh ss (Except.error ()) t1) t2) t3).2.1.errorStreak = 0 ∧
    (tick sh ss (Except.error ()) t1).2.2 = [.statusCollectFail 1] ∧
    (tickFail (tick sh ss (Except.error ()) t1) t2).2.2 = [.statusCollectFail 2] ∧
    (tickFail (tickFail (tick sh ss (Except.error ()) t1) t2) t3).2.2 =
      [.statusCollectFail 3, .statusFallback, .ai agentUnreachableEv] ∧
    agentUnreachableEv.type = .agent_unreachable ∧
    agentUnreachableEv.severity = .warn ∧
    ((tick sh ss (Except.error ()) t1).2.2 ++
      (tickFail (tick sh ss (Except.error ()) t1) t2).2.2 ++
      (tickFail (tickFail (tick sh ss (Except.error ()) t1) t2) t3).2.2).countP
        agentMsgP = 1 := by
  have h1 : tick sh ss (Except.error ()) t1 =
      (sh, { ss with errorStreak := 1 }, [.statusCollectFail 1]) := by
    simp [tick, failPath, hiso, hsrc, hurl, hstreak]
  have h2 : tickFail (sh, { ss with errorStreak := 1 },
      ([.statusCollectFail 1] : List OpsMsg)) t2 =
      (sh, { ss with errorStreak := 2 }, [.statusCollectFail 2]) := by
    simp [tickFail, tick, failPath, hiso, hsrc, hurl]
  have h3 : tickFail (sh, { ss with errorStreak := 2 },
      ([.statusCollectFail 2] : List OpsMsg)) t3 =
      (sh, { ss with source := .local, errorStreak := 0 },
       [.statusCollectFail 3, .statusFallback, .ai agentUnreachableEv]) := by
    simp [tickFail, tick, failPath, hiso, hsrc, hurl]
  rw [h1, h2, h3]
  refine ⟨rfl, rfl, rfl, rfl, rfl, rfl, rfl, ?_⟩
  show List.countP agentMsgP
    ([OpsMsg.statusCollectFail 1] ++ [OpsMsg.statusCollectFail 2] ++
      [OpsMsg.statusCollectFail 3, OpsMsg.statusFallback, OpsMsg.ai agentUnreachableEv]) = 1
  rfl

/-- A disabled dry-run controller (the process default). -/
def idleSelfHeal : SelfHealing :=
  { cfg := { enabled := false, mode := .dryRun, rateLimitSeconds := 30 } }

/-- A monitor-source session in its initial state. -/
def monitorSession : OpsSession := { source := .monitor }

/-- Witness for C8 at a concrete input. -/
theorem tick_failure_streak_fallback_witness :
    (tickFail (tickFail (tick idleSelfHeal monitorSession (Except.error ()) 1) 2)
        3).2.1.source = SrcKind.local ∧
    (tickFail (tickFail (tick idleSelfHeal monitorSession (Except.error ()) 1) 2)
        3).2.1.errorStreak = 0 ∧
    (tick idleSelfHeal monitorSession (Except.error ()) 1).2.2 =
      [.statusCollectFail 1] ∧
    (tickFail (tick idleSelfHeal monitorSession (Except.error ()) 1) 2).2.2 =
      [.statusCollectFail 2] ∧
    (tickFail (tickFail (tick idleSelfHeal monitorSession (Except.error ()) 1) 2)
        3).2.2 = [.statusCollectFail 3, .statusFallback, .ai agentUnreachableEv] ∧
    agentUnreachableEv.type = .agent_unreachable ∧
    agentUnreachableEv.severity = .warn ∧
    ((tick idleSelfHeal monitorSession (Except.error ()) 1).2.2 ++
      (tickFail (tick idleSelfHeal monitorSession (Except.error ()) 1) 2).2.2 ++
      (tickFail (tickFail (tick idleSelfHeal monitorSession (Except.error ()) 1) 2)
        3).2.2).countP agentMsgP = 1 :=
  tick_failure_streak_fallback idleSelfHeal monitorSession 1 2 3 rfl rfl rfl rfl

/-- The events detect produces inside a successful tick. -/
def tickEvents (ss : OpsSession) (m : MetricsSample) (dflt : String) (now : ℚ) :
    List AiEvent :=
  (AnomalyDetector.detect (AnomalyDetector.push ss.detector m)
    (m.source.getD dflt) now).1

theorem runPipeline_snapshot (sh : SelfHealing) (ss : OpsSession) (m : MetricsSample)
    (dflt : String) (now : ℚ) :
    ((runPipeline sh ss m dflt now).1 =
      (SelfHealing.apply sh (tickEvents ss m dflt now) now).2) ∧
    (tickEvents ss m dflt now ≠ [] →
      (runPipeline sh ss m dflt now).2.2.getLast? =
        some (selfhealMsg (runPipeline sh ss m dflt now).1 now)) ∧
    (tickEvents ss m dflt now = [] →
      ∀ en md rl iso, OpsMsg.selfheal en md rl iso ∉ (runPipeline sh ss m dflt now).2.2) := by
  refine ⟨rfl, fun hne => ?_, fun heq => ?_⟩
  · show (OpsMsg.metrics m :: (SelfHealing.apply sh (tickEvents ss m dflt now) now).1.map
        OpsMsg.ai ++ (if 0 < (tickEvents ss m dflt now).length
          then [selfhealMsg (SelfHealing.apply sh (tickEvents ss m dflt now) now).2 now]
          else [])).getLast? = _
    rw [if_pos (by cases htk : tickEvents ss m dflt now with
      | nil => exact absurd htk hne
      | cons a l => simp)]
    rw [show OpsMsg.metrics m :: (SelfHealing.apply sh (tickEvents ss m dflt now)
        now).1.map OpsMsg.ai ++
        [selfhealMsg (SelfHealing.apply sh (tickEvents ss m dflt now) now).2 now] =
      (OpsMsg.metrics m :: (SelfHealing.apply sh (tickEvents ss m dflt now)
        now).1.map OpsMsg.ai) ++
        [selfhealMsg (SelfHealing.apply sh (tickEvents ss m dflt now) now).2 now]
      from rfl]
    rw [List.getLast?_concat]
    rfl
  · intro en md rl iso hmem
    revert hmem
    show OpsMsg.selfheal en md rl iso ∉ OpsMsg.metrics m ::
      (SelfHealing.apply sh (tickEvents ss m dflt now) now).1.map OpsMsg.ai ++
      (if 0 < (tickEvents ss m dflt now).length
        then [selfhealMsg (SelfHealing.apply sh (tickEvents ss m dflt now) now).2 now]
        else [])
    rw [if_neg (by rw [heq]; simp)]
    intro hmem
    rcases List.mem_append.mp hmem with h | h
    · rcases List.mem_cons.mp h with h | h
      · exact OpsMsg.noConfusion h
      · obtain ⟨e, -, he⟩ := List.mem_map.mp h
        exact OpsMsg.noConfusion he
    · simp at h

/-- C9: on a successful tick the shared controller returned by tick is
exactly the post-apply controller; if detect produced at least one
event the last published message is the policy snapshot built from
that post-apply controller (so it reflects the state after apply ran
in that same tick), and if no event fired no policy snapshot is
published. -/
theorem tick_policy_snapshot_after_apply (sh : SelfHealing) (ss : OpsSession)
    (m : MetricsSample) (now : ℚ) (dflt : String)
    (hiso : SelfHealing.isIsolated sh = false)
    (hurl : ss.monitorUrlOk = true)
    (hdflt : dflt = match ss.source with
      | SrcKind.monitor => "monitor"
      | SrcKind.local => "local") :
    ((tick sh ss (Except.ok m) now).1 =
      (SelfHealing.apply sh (tickEvents ss m dflt now) now).2) ∧
    (tickEvents ss m dflt now ≠ [] →
      (tick sh ss (Except.ok m) now).2.2.getLast? =
        some (selfhealMsg (tick sh ss (Except.ok m) now).1 now)) ∧
    (tickEvents ss m dflt now = [] →
      ∀ en md rl iso, OpsMsg.selfheal en md rl iso ∉ (tick sh ss (Except.ok m) now).2.2) := by
  rcases hsrc : ss.source with - | -
  · rw [hsrc] at hdflt
    subst hdflt
    have hR : tick sh ss (Except.ok m) now = runPipeline sh ss m "local" now := by
      simp [tick, hiso, hsrc]
    rw [hR]
    exact runPipeline_snapshot sh ss m "local" now
  · rw [hsrc] at hdflt
    subst hdflt
    have hR : tick sh ss (Except.ok m) now = runPipeline sh ss m "monitor" now := by
      simp [tick, hiso, hsrc, hurl]
    rw [hR]
    exact runPipeline_snapshot sh ss m "monitor" now

/-- Witness for C9 at a concrete input. -/
theorem tick_policy_snapshot_after_apply_witness :
    ((tick idleSelfHeal monitorSession (Except.ok sample96) 5).1 =
      (SelfHealing.apply idleSelfHeal
        (tickEvents monitorSession sample96 "monitor" 5) 5).2) ∧
    (tickEvents monitorSession sample96 "monitor" 5 ≠ [] →
      (tick idleSelfHeal monitorSession (Except.ok sample96) 5).2.2.getLast? =
        some (selfhealMsg (tick idleSelfHeal monitorSession (Except.ok sample96) 5).1 5)) ∧
    (tickEvents monitorSession sample96 "monitor" 5 = [] →
      ∀ en md rl iso, OpsMsg.selfheal en md rl iso ∉
        (tick idleSelfHeal monitorSession (Except.ok sample96) 5).2.2) :=
  tick_policy_snapshot_after_apply idleSelfHeal monitorSession sample96 5 "monitor"
    rfl rfl rfl

end H5C
